import Mathlib

/-!
Verification of the blockchain collector service against its design notes.

This file shallowly embeds the Python sources of the collector
(`collectors/data_validator.py`, `collectors/bitcoin_collector.py`,
`collectors/solana_collector.py`) into Lean and proves or refutes the
behavioural claims made about them.

Modelling conventions:
* Python scalar and JSON values are modelled by `PyVal` (no floats appear in
  the relevant code paths; Python `datetime` objects are modelled by their
  epoch second count, `float` results such as quality scores by `Rat`).
* Python exceptions are modelled by `Except PyErr`; every operation that can
  raise in the source returns in this monad.
* The network is modelled as a stream of per-attempt transport outcomes;
  wall-clock sleeps and log statements have no observable effect and are
  dropped.
-/

/-- Python values as used by the collector: scalars, `datetime` (epoch
seconds), and parsed-JSON composites. -/
inductive PyVal where
  | none
  | int (i : Int)
  | str (s : String)
  | dt (seconds : Int)
  | list (xs : List PyVal)
  | dict (fields : List (String × PyVal))

/-- A Python dictionary with string keys, as passed to the validators. -/
abbrev PyDict := List (String × PyVal)

/-- Python exceptions raised by the embedded code.  `timeoutErr` models
`asyncio.TimeoutError`, whose `str()` is the empty string. -/
inductive PyErr where
  | typeError (msg : String)
  | valueError (msg : String)
  | keyError (key : String)
  | attributeError (msg : String)
  | indexError (msg : String)
  | exc (msg : String)
  | timeoutErr
deriving DecidableEq, Repr

/-- The string the collector stores via `str(e)` for a caught exception. -/
def PyErr.toMessage : PyErr → String
  | .typeError m => m
  | .valueError m => m
  | .keyError k => k
  | .attributeError m => m
  | .indexError m => m
  | .exc m => m
  | .timeoutErr => ""

/-- First-match lookup in a Python dict (keys are unique in practice). -/
def pyLookup : PyDict → String → Option PyVal
  | [], _ => Option.none
  | (k, v) :: rest, key => if k = key then some v else pyLookup rest key

/-- Python `d.get(key, default)`. -/
def pyGetD (d : PyDict) (key : String) (dflt : PyVal) : PyVal :=
  (pyLookup d key).getD dflt

/-- Python `key not in d or d[key] is None`, the validator's missing-field
test. -/
def isMissingField (d : PyDict) (key : String) : Bool :=
  match pyLookup d key with
  | Option.none => true
  | some PyVal.none => true
  | some _ => false

/-- Python truthiness of the modelled values. -/
def pyTruthy : PyVal → Bool
  | .none => false
  | .int i => i ≠ 0
  | .str s => s ≠ ""
  | .dt _ => true
  | .list xs => !xs.isEmpty
  | .dict fs => !fs.isEmpty

/-- Python `a < b`.  Ints, datetimes and strings compare within their own
type; every mixed comparison raises `TypeError` exactly as in Python 3.
(List/list comparison, which Python would do elementwise, is modelled as a
`TypeError`; no call site compares two lists.) -/
def pyLt : PyVal → PyVal → Except PyErr Bool
  | .int a, .int b => .ok (decide (a < b))
  | .dt a, .dt b => .ok (decide (a < b))
  | .str a, .str b => .ok (decide (a < b))
  | _, _ => .error (.typeError "unorderable operand types for comparison")

/-- Python `a <= b`, with the same typing behaviour as `pyLt`. -/
def pyLe : PyVal → PyVal → Except PyErr Bool
  | .int a, .int b => .ok (decide (a ≤ b))
  | .dt a, .dt b => .ok (decide (a ≤ b))
  | .str a, .str b => .ok (decide (a ≤ b))
  | _, _ => .error (.typeError "unorderable operand types for comparison")

/-- Python `v == n` for an int literal `n`; `==` never raises. -/
def pyEqInt (v : PyVal) (n : Int) : Bool :=
  match v with
  | .int m => m = n
  | _ => false

/-- Python `v == s` for a string literal `s`. -/
def pyEqStr (v : PyVal) (s : String) : Bool :=
  match v with
  | .str t => t = s
  | _ => false

/-- Python `v is None`. -/
def pyIsNone : PyVal → Bool
  | .none => true
  | _ => false

/-- Python `len(v)`; raises `TypeError` on values without a length. -/
def pyLen : PyVal → Except PyErr Nat
  | .str s => .ok s.length
  | .list xs => .ok xs.length
  | .dict fs => .ok fs.length
  | _ => .error (.typeError "object has no len")

/-- Python whitespace stripped by `int()` (the common ASCII space class). -/
def isPySpace (c : Char) : Bool :=
  c = ' ' || c = '\t' || c = '\n' || c = '\r' || c = '\x0b' || c = '\x0c'

/-- Hexadecimal digits accepted by Python `int(s, 16)`. -/
def isHexDigitPy (c : Char) : Bool :=
  c.isDigit || ('a' ≤ c && c ≤ 'f') || ('A' ≤ c && c ≤ 'F')

/-- Tail of a Python numeric literal: digits with optional single
underscores between them. -/
def hexTail : List Char → Bool
  | [] => true
  | '_' :: c :: rest => isHexDigitPy c && hexTail rest
  | ['_'] => false
  | c :: rest => isHexDigitPy c && hexTail rest

/-- A nonempty run of hex digits with optional single underscores between
digits, as in Python's numeric-literal grammar. -/
def hexDigitsPart : List Char → Bool
  | [] => false
  | c :: rest => isHexDigitPy c && hexTail rest

/-- Strip Python-`int()` whitespace from both ends of a character list. -/
def pyStripSpaces (cs : List Char) : List Char :=
  ((cs.dropWhile isPySpace).reverse.dropWhile isPySpace).reverse

/-- Whether Python `int(s, 16)` succeeds: optional surrounding whitespace,
optional sign, optional `0x`/`0X` prefix (an underscore may follow the
prefix), then hex digits with single underscores between digits. -/
def pyInt16Ok (s : String) : Bool :=
  let cs := pyStripSpaces s.data
  let cs := match cs with
    | '+' :: r => r
    | '-' :: r => r
    | r => r
  match cs with
  | '0' :: 'x' :: r =>
      (match r with
       | '_' :: r2 => hexDigitsPart r2
       | _ => hexDigitsPart r)
  | '0' :: 'X' :: r =>
      (match r with
       | '_' :: r2 => hexDigitsPart r2
       | _ => hexDigitsPart r)
  | r => hexDigitsPart r

/-- Value accumulator for Python base-10 digit runs with underscores. -/
def decGo (acc : Nat) : List Char → Option Nat
  | [] => some acc
  | '_' :: c :: rest =>
      if c.isDigit then decGo (acc * 10 + (c.toNat - 48)) rest else Option.none
  | ['_'] => Option.none
  | c :: rest =>
      if c.isDigit then decGo (acc * 10 + (c.toNat - 48)) rest else Option.none

/-- Value of a Python base-10 digit run (digits with single underscores
between digits), if well formed. -/
def decDigitsVal : List Char → Option Nat
  | [] => Option.none
  | c :: rest => if c.isDigit then decGo (c.toNat - 48) rest else Option.none

/-- Python `int(s)` on a string: optional surrounding whitespace, optional
sign, then base-10 digits with single underscores between digits.  Returns
the parsed value, or `none` where Python raises `ValueError`. -/
def pyInt10? (s : String) : Option Int :=
  let cs := pyStripSpaces s.data
  match cs with
  | '+' :: r => (decDigitsVal r).map (fun n => (n : Int))
  | '-' :: r => (decDigitsVal r).map (fun n => -(n : Int))
  | r => (decDigitsVal r).map (fun n => (n : Int))

/-- Python `int(v)` as applied by the collectors: ints pass through, strings
are parsed base 10 (`ValueError` on failure), every other modelled value
raises `TypeError`. -/
def pyToInt : PyVal → Except PyErr Int
  | .int n => .ok n
  | .str s =>
      match pyInt10? s with
      | some n => .ok n
      | Option.none => .error (.valueError "invalid literal for int with base 10")
  | _ => .error (.typeError "int argument must be a string or a number")

/-- Python `datetime.fromtimestamp(v)`: needs a number. -/
def pyFromTimestamp : PyVal → Except PyErr PyVal
  | .int n => .ok (.dt n)
  | _ => .error (.typeError "an integer is required for fromtimestamp")

/-- Python `now - v` for a `datetime` minuend, in seconds. -/
def pyDtSub (now : Int) : PyVal → Except PyErr Int
  | .dt t => .ok (now - t)
  | _ => .error (.typeError "unsupported operand types for datetime subtraction")

/-- Python subscript `v[key]` with a string key. -/
def pyGetItemS (v : PyVal) (key : String) : Except PyErr PyVal :=
  match v with
  | .dict fs =>
      match pyLookup fs key with
      | some x => .ok x
      | Option.none => .error (.keyError key)
  | .list _ => .error (.typeError "list indices must be integers")
  | _ => .error (.typeError "object is not subscriptable")

/-- Python `v.get(key, default)`: only dicts have `.get`. -/
def pyDictGetD (v : PyVal) (key : String) (dflt : PyVal) : Except PyErr PyVal :=
  match v with
  | .dict fs => .ok (pyGetD fs key dflt)
  | _ => .error (.attributeError "object has no attribute get")

/-- Rendering used where an f-string interpolates a non-string value; the
texts never influence control flow. -/
def pyStrOf : PyVal → String
  | .none => "None"
  | .int i => toString i
  | .str s => s
  | .dt t => "datetime(" ++ toString t ++ ")"
  | .list _ => "[list]"
  | .dict _ => "dict"

/-- Python slice `v[:n]` followed by iteration over the result, yielding the
elements as values (characters of a string become one-character strings).
Raises `TypeError` on unsliceable values. -/
def pySliceIter (n : Nat) : PyVal → Except PyErr (List PyVal)
  | .list xs => .ok (xs.take n)
  | .str s => .ok ((s.data.take n).map (fun c => PyVal.str (String.mk [c])))
  | _ => .error (.typeError "unsliceable object")

/-- Python slice `v[:20]` as interpolated into an f-string. -/
def pySliceStr20 (v : PyVal) : Except PyErr String :=
  match v with
  | .str s => .ok (String.mk (s.data.take 20))
  | .list xs => .ok (pyStrOf (.list (xs.take 20)))
  | _ => .error (.typeError "unsliceable object")

/-- Python subscript `v[0]`. -/
def pyIndex0 : PyVal → Except PyErr PyVal
  | .list [] => .error (.indexError "list index out of range")
  | .list (x :: _) => .ok x
  | .str s =>
      match s.data with
      | [] => .error (.indexError "string index out of range")
      | c :: _ => .ok (.str (String.mk [c]))
  | .dict _ => .error (.keyError "0")
  | _ => .error (.typeError "object is not subscriptable")

/-- Python `v - 1`, as used to initialize a cursor from a fetched tip. -/
def pySub1 : PyVal → Except PyErr Int
  | .int n => .ok (n - 1)
  | _ => .error (.typeError "unsupported operand types for subtraction")

/-- Numeric content of a value as stored into the metrics mapping; every
reachable store site holds an int by the time it executes. -/
def pyAsQ : PyVal → Rat
  | .int i => (i : Rat)
  | .dt t => (t : Rat)
  | _ => 0

/-- Data quality classification levels (`QualityLevel` in the source). -/
inductive QualityLevel where
  | high
  | medium
  | low
  | invalid
deriving DecidableEq, Repr

/-- Result of a data validation check (`ValidationResult` in the source);
metric values are floats in the source, modelled exactly as rationals. -/
structure ValidationResult where
  is_valid : Bool
  quality_level : QualityLevel
  issues : List String
  warnings : List String
  metrics : List (String × Rat)
deriving DecidableEq, Repr

/-- The validator's cumulative counters (`self.validation_counts`). -/
structure ValidationCounts where
  total : Nat
  passed : Nat
  failed : Nat
  warnings : Nat
deriving DecidableEq, Repr

/-- Counters as initialized by `DataValidator.__init__`. -/
def initialCounts : ValidationCounts := ⟨0, 0, 0, 0⟩

/-- Source `_calculate_quality_score`: start at 1.0, subtract 0.2 per issue
and 0.05 per warning, floor at 0.0 (the float constants are exact here). -/
def calcQualityScore (issues warnings : List String) : Rat :=
  max 0 (1 - (issues.length : Rat) * (1 / 5) - (warnings.length : Rat) * (1 / 20))

/-- Source `_determine_quality_level`. -/
def determineQualityLevel (issues warnings : List String) : QualityLevel :=
  if issues.length > 2 then .invalid
  else if !issues.isEmpty then .low
  else if !warnings.isEmpty then .medium
  else .high

/-- Source `_is_valid_hash` applied to a string: falsy or wrong length fails,
then `int(hash_str, 16)` decides (`ValueError` is caught and means false). -/
def isValidHashStr (s : String) (expectedLength : Nat) : Bool :=
  if s = "" || s.length ≠ expectedLength then false
  else pyInt16Ok s

/-- Source `_is_valid_hash` on an arbitrary value: `len` raises on ints and
datetimes, and `int(v, 16)` on a list or dict raises a `TypeError` that the
function's `except ValueError` does not catch. -/
def isValidHash (v : PyVal) (expectedLength : Nat) : Except PyErr Bool :=
  if !pyTruthy v then .ok false
  else do
    let l ← pyLen v
    if l ≠ expectedLength then .ok false
    else
      match v with
      | .str s => .ok (pyInt16Ok s)
      | _ => .error (.typeError "int conversion requires a string")

/-- Required fields of a Bitcoin block record. -/
def btcBlockRequired : List String :=
  ["block_height", "block_hash", "timestamp", "previous_block_hash",
   "merkle_root", "difficulty", "nonce", "size", "weight", "transaction_count"]

/-- Source `validate_bitcoin_block` without the counter update (the counters
are only touched at the very end of the method, after which nothing can
raise, so the method equals this core followed by `bumpBitcoinCounts`). -/
def validateBitcoinBlockCore (now : Int) (d : PyDict) : Except PyErr ValidationResult := do
  let missing := btcBlockRequired.filter (fun f => isMissingField d f)
  let issues : List String :=
    if missing.isEmpty then []
    else ["Missing required fields: " ++ String.intercalate ", " missing]
  let warnings : List String := []
  let metrics : List (String × Rat) :=
    [("completeness",
      ((btcBlockRequired.length - missing.length : Nat) : Rat) / (btcBlockRequired.length : Rat))]
  let bh := pyGetD d "block_height" (.int (-1))
  let bhNeg ← pyLt bh (.int 0)
  let issues := if bhNeg then issues ++ ["Invalid block_height: " ++ pyStrOf (pyGetD d "block_height" .none)] else issues
  let size := pyGetD d "size" (.int 0)
  let weight := pyGetD d "weight" (.int 0)
  let sizeBad ← pyLe size (.int 0)
  let (issues, warnings) ←
    if sizeBad then
      pure (issues ++ ["Invalid block size: " ++ pyStrOf size], warnings)
    else do
      let sizeBig ← pyLt (.int 4000000) size
      pure (issues,
            if sizeBig then warnings ++ ["Unusually large block size: " ++ pyStrOf size ++ " bytes"] else warnings)
  let weightBad ← pyLe weight (.int 0)
  let (issues, warnings) ←
    if weightBad then
      pure (issues ++ ["Invalid block weight: " ++ pyStrOf weight], warnings)
    else do
      let weightBig ← pyLt (.int 4000000) weight
      pure (issues,
            if weightBig then warnings ++ ["Block weight exceeds expected max: " ++ pyStrOf weight] else warnings)
  let difficulty := pyGetD d "difficulty" (.int 0)
  let diffBad ← pyLt difficulty (.int 1)
  let issues := if diffBad then issues ++ ["Invalid difficulty: " ++ pyStrOf difficulty] else issues
  let txc := pyGetD d "transaction_count" (.int 0)
  let txcLow ← pyLt txc (.int 1)
  let warnings ←
    if txcLow then
      pure (warnings ++ ["Block has no transactions (coinbase missing?): " ++ pyStrOf txc])
    else do
      let txcHigh ← pyLt (.int 10000) txc
      pure (if txcHigh then warnings ++ ["Unusually high transaction count: " ++ pyStrOf txc] else warnings)
  let metrics := metrics ++ [("tx_count", pyAsQ txc)]
  let ts := pyGetD d "timestamp" .none
  let (issues, warnings, metrics) ←
    if pyTruthy ts then do
      let diffSec ← pyDtSub now ts
      let timeDiff : Rat := |(diffSec : Rat) / 3600|
      let inFuture ← pyLt (.dt (now + 2 * 3600)) ts
      if inFuture then
        pure (issues ++ ["Block timestamp is in the future: " ++ pyStrOf ts], warnings,
              metrics ++ [("timestamp_age_hours", timeDiff)])
      else if timeDiff > (24 * 365 : Rat) then
        pure (issues, warnings ++ ["Block is very old: " ++ pyStrOf ts],
              metrics ++ [("timestamp_age_hours", timeDiff)])
      else
        pure (issues, warnings, metrics ++ [("timestamp_age_hours", timeDiff)])
    else
      pure (issues ++ ["Missing timestamp"], warnings, metrics)
  let bhash := pyGetD d "block_hash" (.str "")
  let bhashOk ← isValidHash bhash 64
  let issues ←
    if bhashOk then pure issues
    else do
      let pfx ← pySliceStr20 bhash
      pure (issues ++ ["Invalid block_hash format: " ++ pfx ++ "..."])
  let mroot := pyGetD d "merkle_root" (.str "")
  let mrootOk ← isValidHash mroot 64
  let warnings := if mrootOk then warnings else warnings ++ ["Invalid merkle_root format"]
  let quality_level :=
    if !issues.isEmpty then (if issues.length > 2 then QualityLevel.invalid else QualityLevel.low)
    else if !warnings.isEmpty then QualityLevel.medium
    else QualityLevel.high
  let metrics := metrics ++ [("quality_score", calcQualityScore issues warnings)]
  pure { is_valid := issues.isEmpty, quality_level := quality_level,
         issues := issues, warnings := warnings, metrics := metrics }

/-- The counter update performed at the end of `validate_bitcoin_block`:
`total` always, then exactly one of `failed`, `warnings`, `passed`. -/
def bumpBitcoinCounts (c : ValidationCounts) (r : ValidationResult) : ValidationCounts :=
  if !r.issues.isEmpty then
    { c with total := c.total + 1, failed := c.failed + 1 }
  else if !r.warnings.isEmpty then
    { c with total := c.total + 1, warnings := c.warnings + 1 }
  else
    { c with total := c.total + 1, passed := c.passed + 1 }

/-- Source `validate_bitcoin_block` as a state transformer on the validator's
counters; an exception leaves the counters untouched, since the update in the
source happens after the last statement that can raise. -/
def validateBitcoinBlock (now : Int) (c : ValidationCounts) (d : PyDict) :
    Except PyErr (ValidationCounts × ValidationResult) :=
  (validateBitcoinBlockCore now d).map (fun r => (bumpBitcoinCounts c r, r))

/-- Required fields of a Bitcoin transaction record. -/
def btcTxRequired : List String :=
  ["tx_hash", "block_height", "fee", "input_count", "output_count"]

/-- Source `validate_bitcoin_transaction`; it never touches the cumulative
counters. -/
def validateBitcoinTransaction (d : PyDict) : Except PyErr ValidationResult := do
  let missing := btcTxRequired.filter (fun f => isMissingField d f)
  let issues : List String :=
    if missing.isEmpty then []
    else ["Missing fields: " ++ String.intercalate ", " missing]
  let warnings : List String := []
  let metrics : List (String × Rat) :=
    [("completeness",
      ((btcTxRequired.length - missing.length : Nat) : Rat) / (btcTxRequired.length : Rat))]
  let fee := pyGetD d "fee" (.int (-1))
  let feeNeg ← pyLt fee (.int 0)
  let (issues, warnings) :=
    if feeNeg then (issues ++ ["Negative fee: " ++ pyStrOf fee], warnings)
    else if pyEqInt fee 0 then (issues, warnings ++ ["Zero fee (coinbase transaction?)"])
    else (issues, warnings)
  let ic := pyGetD d "input_count" (.int 0)
  let oc := pyGetD d "output_count" (.int 0)
  let (issues, warnings) ←
    if pyEqInt ic 0 then do
      let ocPos ← pyLt (.int 0) oc
      if ocPos then
        pure (issues, warnings ++ ["No inputs (coinbase transaction)"])
      else do
        let icNeg ← pyLt ic (.int 0)
        if icNeg then
          pure (issues ++ ["Invalid input/output counts: " ++ pyStrOf ic ++ "/" ++ pyStrOf oc], warnings)
        else do
          let ocNeg ← pyLt oc (.int 0)
          pure (if ocNeg then issues ++ ["Invalid input/output counts: " ++ pyStrOf ic ++ "/" ++ pyStrOf oc] else issues,
                warnings)
    else do
      let icNeg ← pyLt ic (.int 0)
      if icNeg then
        pure (issues ++ ["Invalid input/output counts: " ++ pyStrOf ic ++ "/" ++ pyStrOf oc], warnings)
      else do
        let ocNeg ← pyLt oc (.int 0)
        pure (if ocNeg then issues ++ ["Invalid input/output counts: " ++ pyStrOf ic ++ "/" ++ pyStrOf oc] else issues,
              warnings)
  let issues := if pyEqInt oc 0 then issues ++ ["Transaction has no outputs"] else issues
  let th := pyGetD d "tx_hash" (.str "")
  let thOk ← isValidHash th 64
  let issues := if thOk then issues else issues ++ ["Invalid tx_hash format"]
  let quality_level := determineQualityLevel issues warnings
  let metrics := metrics ++ [("quality_score", calcQualityScore issues warnings)]
  pure { is_valid := issues.isEmpty, quality_level := quality_level,
         issues := issues, warnings := warnings, metrics := metrics }

/-- Required fields of a Solana block record. -/
def solBlockRequired : List String :=
  ["slot", "block_height", "block_hash", "timestamp", "parent_slot", "transaction_count"]

/-- Source `validate_solana_block`; it never touches the cumulative
counters. -/
def validateSolanaBlock (now : Int) (d : PyDict) : Except PyErr ValidationResult := do
  let missing := solBlockRequired.filter (fun f => isMissingField d f)
  let issues : List String :=
    if missing.isEmpty then []
    else ["Missing fields: " ++ String.intercalate ", " missing]
  let warnings : List String := []
  let metrics : List (String × Rat) :=
    [("completeness",
      ((solBlockRequired.length - missing.length : Nat) : Rat) / (solBlockRequired.length : Rat))]
  let slot := pyGetD d "slot" (.int 0)
  let bh := pyGetD d "block_height" (.int 0)
  let ps := pyGetD d "parent_slot" (.int 0)
  let bhGt ← pyLt slot bh
  let issues := if bhGt then issues ++ ["block_height > slot"] else issues
  let psGe ← pyLe slot ps
  let issues := if psGe then issues ++ ["parent_slot >= slot"] else issues
  let skipped ←
    match slot, ps with
    | .int a, .int b => Except.ok (a - b - 1)
    | _, _ => Except.error (PyErr.typeError "unsupported operand types for subtraction")
  let warnings := if skipped > 10 then warnings ++ ["Many skipped slots: " ++ toString skipped] else warnings
  let metrics := metrics ++ [("skipped_slots", (skipped : Rat))]
  let ts := pyGetD d "timestamp" .none
  let (issues, metrics) ←
    if pyTruthy ts then do
      let inFuture ← pyLt (.dt (now + 60)) ts
      let issues := if inFuture then issues ++ ["Timestamp in future: " ++ pyStrOf ts] else issues
      let ageSec ← pyDtSub now ts
      pure (issues, metrics ++ [("timestamp_age_seconds", (ageSec : Rat))])
    else
      pure (issues, metrics)
  let txc := pyGetD d "transaction_count" (.int 0)
  let txcNeg ← pyLt txc (.int 0)
  let (issues, warnings) ←
    if txcNeg then
      pure (issues ++ ["Negative transaction count: " ++ pyStrOf txc], warnings)
    else do
      let txcHigh ← pyLt (.int 50000) txc
      pure (issues,
            if txcHigh then warnings ++ ["Very high transaction count: " ++ pyStrOf txc] else warnings)
  let metrics := metrics ++ [("tx_count", pyAsQ txc)]
  let quality_level := determineQualityLevel issues warnings
  let metrics := metrics ++ [("quality_score", calcQualityScore issues warnings)]
  pure { is_valid := issues.isEmpty, quality_level := quality_level,
         issues := issues, warnings := warnings, metrics := metrics }

/-- Required fields of a Solana transaction record. -/
def solTxRequired : List String := ["signature", "slot", "fee", "status"]

/-- Source `validate_solana_transaction`; it never touches the cumulative
counters. -/
def validateSolanaTransaction (d : PyDict) : Except PyErr ValidationResult := do
  let missing := solTxRequired.filter (fun f => isMissingField d f)
  let issues : List String :=
    if missing.isEmpty then []
    else ["Missing fields: " ++ String.intercalate ", " missing]
  let warnings : List String := []
  let metrics : List (String × Rat) :=
    [("completeness",
      ((solTxRequired.length - missing.length : Nat) : Rat) / (solTxRequired.length : Rat))]
  let fee := pyGetD d "fee" (.int (-1))
  let feeNeg ← pyLt fee (.int 0)
  let (issues, warnings) ←
    if feeNeg then
      pure (issues ++ ["Negative fee: " ++ pyStrOf fee], warnings)
    else do
      let feeLow ← pyLt fee (.int 5000)
      if feeLow then do
        let feePos ← pyLt (.int 0) fee
        pure (issues,
              if feePos then warnings ++ ["Fee below expected minimum: " ++ pyStrOf fee ++ " lamports"] else warnings)
      else
        pure (issues, warnings)
  let status := pyGetD d "status" (.str "")
  let issues :=
    if pyEqStr status "success" || pyEqStr status "failed" then issues
    else issues ++ ["Invalid status: " ++ pyStrOf status]
  let metrics :=
    metrics ++ [("is_failed", if pyEqStr status "failed" then (1 : Rat) else 0)]
  let signature := pyGetD d "signature" (.str "")
  let sigLen ← pyLen signature
  let warnings :=
    if sigLen < 80 || sigLen > 90 then
      warnings ++ ["Unusual signature length: " ++ toString sigLen]
    else warnings
  let quality_level := determineQualityLevel issues warnings
  let metrics := metrics ++ [("quality_score", calcQualityScore issues warnings)]
  pure { is_valid := issues.isEmpty, quality_level := quality_level,
         issues := issues, warnings := warnings, metrics := metrics }

/-- One HTTP attempt's outcome as seen by `_api_call_with_retry`: success
carries the parsed payload (text becomes a string value), 429 carries the
optional `Retry-After` header text, and the remaining constructors are the
status/exception classes the source distinguishes. -/
inductive HttpResp where
  | ok (payload : PyVal)
  | rateLimited (retryAfter : Option String)
  | notFound
  | httpError (status : Nat) (body : String)
  | timeout
  | connError (msg : String)

/-- The retry loop of `_api_call_with_retry`.  `remaining` is the number of
loop iterations left (`max_retries - attempt`); a 429 doubles the delay
(capped at the ceiling) and consumes an attempt via `continue`; 404 returns
`None`; other HTTP errors, timeouts and connection errors are retried while
attempts remain and raised on the last attempt; running out of attempts
raises the final `Failed to fetch` exception of the source.  Returns the
outcome, the updated `self.retry_delay`, and the next transport index. -/
def apiCallGo (env : Nat → HttpResp) (maxRetries : Nat) (maxDelay : Int) :
    Nat → Nat → Int → Except PyErr (Option PyVal) × Int × Nat
  | 0, idx, delay =>
      (.error (.exc ("Failed to fetch after " ++ toString maxRetries ++ " attempts")), delay, idx)
  | remaining + 1, idx, delay =>
      match env idx with
      | .rateLimited hdr =>
          (match hdr with
           | Option.none =>
               apiCallGo env maxRetries maxDelay remaining (idx + 1) (min (delay * 2) maxDelay)
           | some h =>
               match pyInt10? h with
               | some _ =>
                   apiCallGo env maxRetries maxDelay remaining (idx + 1) (min (delay * 2) maxDelay)
               | Option.none =>
                   (.error (.valueError "invalid literal for int with base 10"), delay, idx + 1))
      | .notFound => (.ok Option.none, delay, idx + 1)
      | .httpError status body =>
          if remaining = 0 then
            (.error (.exc ("HTTP " ++ toString status ++ ": " ++ String.mk (body.data.take 100))),
             delay, idx + 1)
          else apiCallGo env maxRetries maxDelay remaining (idx + 1) delay
      | .timeout =>
          if remaining = 0 then (.error .timeoutErr, delay, idx + 1)
          else apiCallGo env maxRetries maxDelay remaining (idx + 1) delay
      | .connError m =>
          if remaining = 0 then (.error (.exc m), delay, idx + 1)
          else apiCallGo env maxRetries maxDelay remaining (idx + 1) delay
      | .ok v => (.ok (some v), delay, idx + 1)

/-- Source `_api_call_with_retry` with its default `max_retries=3`. -/
def apiCall (env : Nat → HttpResp) (idx : Nat) (delay maxDelay : Int) :
    Except PyErr (Option PyVal) × Int × Nat :=
  apiCallGo env 3 maxDelay 3 idx delay

/-- One row of the `collection_metrics` table, as the collectors emit it in
their `finally` blocks (the timing fields carry no information we track). -/
structure CollectionMetric where
  source : String
  recordsCollected : Int
  errorCount : Int
  errorMessage : String
deriving DecidableEq, Repr

/-- A call to the record sink (`client.insert`): data rows with column
names, a `collection_metrics` row, or a `data_quality` row. -/
inductive SinkInsert where
  | rows (table : String) (values : List (List PyVal)) (columns : List String)
  | metric (m : CollectionMetric)
  | quality (source recordType recordId : String) (issueCount warningCount : Nat)

/-- The `collection_metrics` rows among a list of sink calls. -/
def metricsOf (l : List SinkInsert) : List CollectionMetric :=
  l.filterMap fun i =>
    match i with
    | .metric m => some m
    | _ => Option.none

/-- Total number of rows inserted into a given table by a list of sink
calls. -/
def rowsInsertedTo (table : String) (l : List SinkInsert) : Nat :=
  (l.map fun i =>
    match i with
    | .rows t vs _ => if t = table then vs.length else 0
    | _ => 0).sum

/-- Source `log_quality_issue`: inserts one `data_quality` row unless both
lists are empty. -/
def logQualityIssue (source recordType recordId : String) (r : ValidationResult) :
    List SinkInsert :=
  if r.issues.isEmpty && r.warnings.isEmpty then []
  else [.quality source recordType recordId r.issues.length r.warnings.length]

/-- The mutable attributes of `BitcoinCollector`.  `validator` is an
`Option` because the object may or may not carry the attribute; attribute
access on `Option.none` models Python's `AttributeError`. -/
structure BitcoinCollectorState where
  enabled : Bool
  lastBlockHeight : Option Int
  retryDelay : Int
  maxRetryDelay : Int
  validator : Option ValidationCounts
  lastSuccessfulCollect : Option Int
deriving DecidableEq, Repr

/-- `BitcoinCollector.__init__`.  The source line `self.validator =
DataValidator()` sits after the unconditional `raise` that ends
`_api_call_with_retry` and is unreachable, and `__init__` itself never
assigns the attribute, so a constructed collector has no `validator`. -/
def bitcoinInit (enabled : Bool) : BitcoinCollectorState :=
  { enabled := enabled, lastBlockHeight := Option.none, retryDelay := 1,
    maxRetryDelay := 300, validator := Option.none,
    lastSuccessfulCollect := Option.none }

/-- Environment of one `collect()` call: the transport outcome stream and
the current wall-clock time (epoch seconds). -/
structure BitcoinEnv where
  resp : Nat → HttpResp
  now : Int

/-- Observable outcome of the `try` block of `BitcoinCollector.collect`. -/
structure BitcoinBodyResult where
  records : Int
  inserts : List SinkInsert
  state : BitcoinCollectorState
  err : Option PyErr

/-- The `block_data` dict built in `BitcoinCollector.collect` (source lines
263-274), with each subscript and conversion raising as in Python. -/
def buildBitcoinBlockData (block : PyVal) (blockHeight : Int) : Except PyErr PyDict := do
  let blockId ← pyGetItemS block "id"
  let tsRaw ← pyGetItemS block "timestamp"
  let ts ← pyFromTimestamp tsRaw
  let prev ← pyGetItemS block "previousblockhash"
  let mroot ← pyGetItemS block "merkle_root"
  let diffRaw ← pyGetItemS block "difficulty"
  let diff ← pyToInt diffRaw
  let nonce ← pyGetItemS block "nonce"
  let size ← pyGetItemS block "size"
  let weight ← pyGetItemS block "weight"
  let txCount ← pyGetItemS block "tx_count"
  pure [("block_height", .int blockHeight), ("block_hash", blockId), ("timestamp", ts),
        ("previous_block_hash", prev), ("merkle_root", mroot), ("difficulty", .int diff),
        ("nonce", nonce), ("size", size), ("weight", weight), ("transaction_count", txCount)]

/-- The `tx_record` dict built per transaction (source lines 360-370). -/
def buildBitcoinTxRecord (block : PyVal) (blockHeight : Int) (tx : PyVal) :
    Except PyErr PyDict := do
  let txid ← pyGetItemS tx "txid"
  let blockId ← pyGetItemS block "id"
  let size ← pyGetItemS tx "size"
  let weight ← pyGetItemS tx "weight"
  let feeRaw ← pyDictGetD tx "fee" (.int 0)
  let fee ← pyToInt feeRaw
  let vin ← pyGetItemS tx "vin"
  let vinLen ← pyLen vin
  let vout ← pyGetItemS tx "vout"
  let voutLen ← pyLen vout
  let bts ← pyGetItemS block "timestamp"
  let ts ← pyFromTimestamp bts
  pure [("tx_hash", txid), ("block_height", .int blockHeight), ("block_hash", blockId),
        ("size", size), ("weight", weight), ("fee", .int fee),
        ("input_count", .int vinLen), ("output_count", .int voutLen), ("timestamp", ts)]

/-- Column list for the `bitcoin_blocks` insert. -/
def btcBlockColumns : List String :=
  ["block_height", "block_hash", "timestamp", "previous_block_hash",
   "merkle_root", "difficulty", "nonce", "size", "weight", "transaction_count"]

/-- Column list for the `bitcoin_transactions` insert. -/
def btcTxColumns : List String :=
  ["tx_hash", "block_height", "block_hash", "size", "weight", "fee",
   "input_count", "output_count", "timestamp"]

/-- The per-transaction loop of `BitcoinCollector.collect` (source lines
328-384): one API call per transaction id, every exception in an iteration
is caught and the transaction skipped; returns the accumulated records, the
next transport index and the updated retry delay. -/
def bitcoinTxLoop (env : Nat → HttpResp) (block : PyVal) (blockHeight : Int)
    (validator : Option ValidationCounts) (maxDelay : Int) :
    List PyVal → Nat → Int → List PyDict → List PyDict × Nat × Int
  | [], idx, delay, acc => (acc, idx, delay)
  | _txId :: rest, idx, delay, acc =>
      match apiCall env idx delay maxDelay with
      | (.error _, d, i) => bitcoinTxLoop env block blockHeight validator maxDelay rest i d acc
      | (.ok Option.none, d, i) => bitcoinTxLoop env block blockHeight validator maxDelay rest i d acc
      | (.ok (some tx), d, i) =>
          match buildBitcoinTxRecord block blockHeight tx with
          | .error _ => bitcoinTxLoop env block blockHeight validator maxDelay rest i d acc
          | .ok txRec =>
              match validator with
              | Option.none =>
                  bitcoinTxLoop env block blockHeight validator maxDelay rest i d acc
              | some _ =>
                  match validateBitcoinTransaction txRec with
                  | .error _ => bitcoinTxLoop env block blockHeight validator maxDelay rest i d acc
                  | .ok _ => bitcoinTxLoop env block blockHeight validator maxDelay rest i d (acc ++ [txRec])

/-- Processing of one new block in `BitcoinCollector.collect` (source lines
212-399): resolve hash by height, fetch the block, fetch and slice the
transaction ids, build and validate `block_data`, insert, run the
transaction loop, insert the batch, then advance the cursor and relax the
retry delay.  Accessing the absent `validator` attribute raises. -/
def bitcoinFetchUnit (env : BitcoinEnv) (idx : Nat) (blockHeight : Int)
    (s : BitcoinCollectorState) : BitcoinBodyResult :=
  match apiCall env.resp idx s.retryDelay s.maxRetryDelay with
  | (.error e, d, _) => ⟨0, [], { s with retryDelay := d }, some e⟩
  | (.ok Option.none, d, _) => ⟨0, [], { s with retryDelay := d }, Option.none⟩
  | (.ok (some _blockHash), d1, i1) =>
    match apiCall env.resp i1 d1 s.maxRetryDelay with
    | (.error e, d, _) => ⟨0, [], { s with retryDelay := d }, some e⟩
    | (.ok Option.none, d, _) => ⟨0, [], { s with retryDelay := d }, Option.none⟩
    | (.ok (some block), d2, i2) =>
      match apiCall env.resp i2 d2 s.maxRetryDelay with
      | (.error e, d, _) => ⟨0, [], { s with retryDelay := d }, some e⟩
      | (.ok Option.none, d, _) => ⟨0, [], { s with retryDelay := d }, Option.none⟩
      | (.ok (some allTxIds), d3, i3) =>
        match pySliceIter 25 allTxIds with
        | .error e => ⟨0, [], { s with retryDelay := d3 }, some e⟩
        | .ok txIds =>
          match buildBitcoinBlockData block blockHeight with
          | .error e => ⟨0, [], { s with retryDelay := d3 }, some e⟩
          | .ok blockData =>
            match s.validator with
            | Option.none =>
                ⟨0, [], { s with retryDelay := d3 },
                 some (.attributeError "'BitcoinCollector' object has no attribute 'validator'")⟩
            | some counts =>
              match validateBitcoinBlock env.now counts blockData with
              | .error e => ⟨0, [], { s with retryDelay := d3, validator := some counts }, some e⟩
              | .ok (counts', bval) =>
                let qIns :=
                  if !bval.is_valid then
                    logQualityIssue "bitcoin" "block" (toString blockHeight) bval
                  else []
                let ins := qIns ++
                  [.rows "bitcoin_blocks" [btcBlockColumns.map (fun c => pyGetD blockData c .none)]
                    btcBlockColumns]
                let (txData, _i4, d4) :=
                  bitcoinTxLoop env.resp block blockHeight (some counts') s.maxRetryDelay txIds i3 d3 []
                let (ins, recs) :=
                  if !txData.isEmpty then
                    (ins ++ [.rows "bitcoin_transactions"
                              (txData.map (fun t => btcTxColumns.map (fun c => pyGetD t c .none)))
                              btcTxColumns],
                     (1 : Int) + txData.length)
                  else (ins, 1)
                ⟨recs, ins,
                 { s with retryDelay := max 1 (d4 / 2), lastBlockHeight := some blockHeight,
                          lastSuccessfulCollect := some env.now, validator := some counts' },
                 Option.none⟩

/-- The `try` block of `BitcoinCollector.collect` (source lines 187-399):
resolve the tip, lazily initialize the cursor to tip − 1, and collect the
unit at cursor + 1 when one is available. -/
def bitcoinBody (env : BitcoinEnv) (s : BitcoinCollectorState) : BitcoinBodyResult :=
  match apiCall env.resp 0 s.retryDelay s.maxRetryDelay with
  | (.error e, d, _) => ⟨0, [], { s with retryDelay := d }, some e⟩
  | (.ok Option.none, d, _) => ⟨0, [], { s with retryDelay := d }, Option.none⟩
  | (.ok (some v), d, i) =>
    match pyToInt v with
    | .error e => ⟨0, [], { s with retryDelay := d }, some e⟩
    | .ok latest =>
      let s1 := { s with retryDelay := d }
      match s1.lastBlockHeight with
      | Option.none =>
          let s2 := { s1 with lastBlockHeight := some (latest - 1) }
          if latest - 1 < latest then bitcoinFetchUnit env i (latest - 1 + 1) s2
          else ⟨0, [], s2, Option.none⟩
      | some h =>
          if h < latest then bitcoinFetchUnit env i (h + 1) s1
          else ⟨0, [], s1, Option.none⟩

/-- Source `BitcoinCollector.collect`: a disabled collector returns before
the `try`/`finally`, an enabled one always appends exactly one
`collection_metrics` row carrying the caught exception's message. -/
def bitcoinCollect (env : BitcoinEnv) (s : BitcoinCollectorState) :
    BitcoinCollectorState × List SinkInsert :=
  if !s.enabled then (s, [])
  else
    let b := bitcoinBody env s
    let errMsg := match b.err with
      | some e => e.toMessage
      | Option.none => ""
    (b.state,
     b.inserts ++ [.metric { source := "bitcoin", recordsCollected := b.records,
                             errorCount := if errMsg = "" then 0 else 1,
                             errorMessage := errMsg }])

/-- Cursor after a sequence of `collect()` calls on the Bitcoin adapter. -/
def runBitcoin (s : BitcoinCollectorState) (envs : List BitcoinEnv) : BitcoinCollectorState :=
  envs.foldl (fun st e => (bitcoinCollect e st).1) s

/-- The mutable attributes of `SolanaCollector`; its `__init__` does create
the validator. -/
structure SolanaCollectorState where
  enabled : Bool
  lastSlot : Option Int
  validator : ValidationCounts
deriving DecidableEq, Repr

/-- `SolanaCollector.__init__`. -/
def solanaInit (enabled : Bool) : SolanaCollectorState :=
  { enabled := enabled, lastSlot := Option.none, validator := initialCounts }

/-- Environment of one Solana `collect()` call: each RPC POST either raises
(network/JSON error) or yields the parsed response envelope. -/
structure SolanaEnv where
  resp : Nat → Except PyErr PyVal
  now : Int

/-- Source `SolanaCollector.rpc_call`: a single POST with no retry; returns
`result.get('result')` of the envelope (so `None` on an error envelope) and
consumes exactly one transport response. -/
def solanaRpcCall (env : SolanaEnv) (idx : Nat) : Except PyErr PyVal × Nat :=
  (match env.resp idx with
   | .error e => .error e
   | .ok envelope => pyDictGetD envelope "result" PyVal.none
  , idx + 1)

/-- Observable outcome of the `try` block of `SolanaCollector.collect`. -/
structure SolanaBodyResult where
  records : Int
  inserts : List SinkInsert
  state : SolanaCollectorState
  err : Option PyErr

/-- The `block_data` dict built in `SolanaCollector.collect` (source lines
224-232). -/
def buildSolanaBlockData (now : Int) (slot : Int) (block : PyVal) : Except PyErr PyDict := do
  let bh ← pyDictGetD block "blockHeight" (.int 0)
  let bhash ← pyDictGetD block "blockhash" (.str "")
  let btCond ← pyDictGetD block "blockTime" PyVal.none
  let ts ←
    if pyTruthy btCond then do
      let bt ← pyDictGetD block "blockTime" (.int 0)
      pyFromTimestamp bt
    else pure (PyVal.dt now)
  let ps ← pyDictGetD block "parentSlot" (.int 0)
  let prev ← pyDictGetD block "previousBlockhash" (.str "")
  let txsVal ← pyDictGetD block "transactions" (.list [])
  let txCount ← pyLen txsVal
  pure [("slot", .int slot), ("block_height", bh), ("block_hash", bhash), ("timestamp", ts),
        ("parent_slot", ps), ("previous_block_hash", prev), ("transaction_count", .int txCount)]

/-- The `tx_record` dict built per Solana transaction (source lines
289-322). -/
def buildSolanaTxRecord (now : Int) (block : PyVal) (slot : Int) (tx : PyVal) :
    Except PyErr PyDict := do
  let meta ← pyDictGetD tx "meta" (.dict [])
  let transaction ← pyDictGetD tx "transaction" (.dict [])
  let signatures ← pyDictGetD transaction "signatures" (.list [])
  let signature ← if pyTruthy signatures then pyIndex0 signatures else pure (PyVal.str "")
  let bhash ← pyDictGetD block "blockhash" (.str "")
  let feeRaw ← pyDictGetD meta "fee" (.int 0)
  let fee ← pyToInt feeRaw
  let errVal ← pyDictGetD meta "err" PyVal.none
  let status := if pyIsNone errVal then PyVal.str "success" else PyVal.str "failed"
  let btCond ← pyDictGetD block "blockTime" PyVal.none
  let ts ←
    if pyTruthy btCond then do
      let bt ← pyDictGetD block "blockTime" (.int 0)
      pyFromTimestamp bt
    else pure (PyVal.dt now)
  pure [("signature", signature), ("slot", .int slot), ("block_hash", bhash),
        ("fee", .int fee), ("status", status), ("timestamp", ts)]

/-- Column list for the `solana_blocks` insert. -/
def solBlockColumns : List String :=
  ["slot", "block_height", "block_hash", "timestamp", "parent_slot",
   "previous_block_hash", "transaction_count"]

/-- Column list for the `solana_transactions` insert. -/
def solTxColumns : List String :=
  ["signature", "slot", "block_hash", "fee", "status", "timestamp"]

/-- The per-transaction loop of `SolanaCollector.collect` (source lines
287-337); every exception in an iteration is caught and the transaction
skipped, and the validator is stateless here. -/
def solanaTxLoop (now : Int) (block : PyVal) (slot : Int) :
    List PyVal → List PyDict → List PyDict
  | [], acc => acc
  | tx :: rest, acc =>
      match buildSolanaTxRecord now block slot tx with
      | .error _ => solanaTxLoop now block slot rest acc
      | .ok txRec =>
          match validateSolanaTransaction txRec with
          | .error _ => solanaTxLoop now block slot rest acc
          | .ok _ => solanaTxLoop now block slot rest (acc ++ [txRec])

/-- Processing of one available Solana block (source lines 206-347): build
and validate `block_data`, log quality issues, insert the block row, slice
and loop over the embedded transactions, insert the batch, advance the
cursor.  The slice `transactions[:50]` sits outside the per-transaction
`try`, so its failure aborts the cycle after the block row was inserted. -/
def solanaProcessBlock (now : Int) (slot : Int) (block : PyVal) (s : SolanaCollectorState) :
    SolanaBodyResult :=
  match buildSolanaBlockData now slot block with
  | .error e => ⟨0, [], s, some e⟩
  | .ok blockData =>
    match validateSolanaBlock now blockData with
    | .error e => ⟨0, [], s, some e⟩
    | .ok bval =>
      let qIns :=
        if !bval.is_valid then logQualityIssue "solana" "block" (toString slot) bval else []
      let ins := qIns ++
        [.rows "solana_blocks" [solBlockColumns.map (fun c => pyGetD blockData c .none)]
          solBlockColumns]
      match pyDictGetD block "transactions" (.list []) with
      | .error e => ⟨1, ins, s, some e⟩
      | .ok transactions =>
        match pySliceIter 50 transactions with
        | .error e => ⟨1, ins, s, some e⟩
        | .ok txs =>
          let txData := solanaTxLoop now block slot txs []
          let (ins, recs) :=
            if !txData.isEmpty then
              (ins ++ [.rows "solana_transactions"
                        (txData.map (fun t => solTxColumns.map (fun c => pyGetD t c .none)))
                        solTxColumns],
               (1 : Int) + txData.length)
            else (ins, (1 : Int))
          ⟨recs, ins, { s with lastSlot := some slot }, Option.none⟩

/-- The part of `SolanaCollector.collect` after the tip is known: compare
the cursor with the fetched slot value, fetch the block at cursor + 1, and
treat a falsy (`null`) block as "not yet available". -/
def solanaAfterInit (env : SolanaEnv) (idx : Nat) (lastSlot : Int) (latest : PyVal)
    (s : SolanaCollectorState) : SolanaBodyResult :=
  match pyLt (.int lastSlot) latest with
  | .error e => ⟨0, [], s, some e⟩
  | .ok false => ⟨0, [], s, Option.none⟩
  | .ok true =>
      let slot := lastSlot + 1
      match solanaRpcCall env idx with
      | (.error e, _) => ⟨0, [], s, some e⟩
      | (.ok block, _) =>
          if pyTruthy block then solanaProcessBlock env.now slot block s
          else ⟨0, [], s, Option.none⟩

/-- The `try` block of `SolanaCollector.collect` (source lines 168-352):
`getSlot`, lazy cursor initialization to tip − 1 (skipped entirely when the
subtraction raises), then one unit of work. -/
def solanaBody (env : SolanaEnv) (s : SolanaCollectorState) : SolanaBodyResult :=
  match solanaRpcCall env 0 with
  | (.error e, _) => ⟨0, [], s, some e⟩
  | (.ok latest, i1) =>
    match s.lastSlot with
    | Option.none =>
        match pySub1 latest with
        | .error e => ⟨0, [], s, some e⟩
        | .ok v => solanaAfterInit env i1 v latest { s with lastSlot := some v }
    | some h => solanaAfterInit env i1 h latest s

/-- Source `SolanaCollector.collect`: a disabled collector returns before
the `try`/`finally`, an enabled one always appends exactly one
`collection_metrics` row. -/
def solanaCollect (env : SolanaEnv) (s : SolanaCollectorState) :
    SolanaCollectorState × List SinkInsert :=
  if !s.enabled then (s, [])
  else
    let b := solanaBody env s
    let errMsg := match b.err with
      | some e => e.toMessage
      | Option.none => ""
    (b.state,
     b.inserts ++ [.metric { source := "solana", recordsCollected := b.records,
                             errorCount := if errMsg = "" then 0 else 1,
                             errorMessage := errMsg }])

/-- Cursor after a sequence of `collect()` calls on the Solana adapter. -/
def runSolana (s : SolanaCollectorState) (envs : List SolanaEnv) : SolanaCollectorState :=
  envs.foldl (fun st e => (solanaCollect e st).1) s

/-- Lists whose elements all fail a predicate are unchanged by
`dropWhile`. -/
lemma dropWhile_eq_self_of_not (p : Char → Bool) (l : List Char)
    (h : ∀ c ∈ l, p c = false) : l.dropWhile p = l := by
  cases l with
  | nil => rfl
  | cons a t => rw [List.dropWhile_cons]; simp [h a (List.mem_cons_self a t)]

/-- Stripping whitespace from a list without whitespace is the identity. -/
lemma pyStripSpaces_eq (l : List Char) (h : ∀ c ∈ l, isPySpace c = false) :
    pyStripSpaces l = l := by
  unfold pyStripSpaces
  rw [dropWhile_eq_self_of_not _ _ h]
  rw [dropWhile_eq_self_of_not _ _ (fun c hc => h c (List.mem_reverse.mp hc))]
  exact List.reverse_reverse l

/-- A list of hex digits is a valid digit-run tail. -/
lemma hexTail_all : ∀ l : List Char, (∀ c ∈ l, isHexDigitPy c = true) → hexTail l = true := by
  intro l
  induction l with
  | nil => intro _; rfl
  | cons a t ih =>
    intro h
    have ha := h a (by simp)
    have hne : a ≠ '_' := fun e => by subst e; exact absurd ha (by decide)
    rw [hexTail.eq_def]
    split
    · rfl
    · rename_i c rest heq
      injection heq with h1 h2
      subst h1
      exact absurd ha (by decide)
    · rename_i heq
      injection heq with h1 _
      subst h1
      exact absurd ha (by decide)
    · rename_i c rest hne1 hne2 h2
      injection h2 with e1 e2
      subst e1; subst e2
      simp [ha, ih (fun c hc => h c (by simp [hc]))]

/-- A nonempty list of hex digits is a valid digit run. -/
lemma hexDigitsPart_all (l : List Char) (hne : l ≠ [])
    (h : ∀ c ∈ l, isHexDigitPy c = true) : hexDigitsPart l = true := by
  cases l with
  | nil => exact absurd rfl hne
  | cons a t =>
    have ha := h a (by simp)
    have h' : ∀ c ∈ t, isHexDigitPy c = true := fun c hc => h c (by simp [hc])
    simp [hexDigitsPart, ha, hexTail_all t h']

/-- Hex digits are not Python whitespace. -/
lemma isPySpace_of_hex (c : Char) (h : isHexDigitPy c = true) : isPySpace c = false := by
  have h1 : c ≠ ' ' := fun e => by subst e; exact absurd h (by decide)
  have h2 : c ≠ '\t' := fun e => by subst e; exact absurd h (by decide)
  have h3 : c ≠ '\n' := fun e => by subst e; exact absurd h (by decide)
  have h4 : c ≠ '\r' := fun e => by subst e; exact absurd h (by decide)
  have h5 : c ≠ '\x0b' := fun e => by subst e; exact absurd h (by decide)
  have h6 : c ≠ '\x0c' := fun e => by subst e; exact absurd h (by decide)
  simp [isPySpace, h1, h2, h3, h4, h5, h6]

/-- Python `int(s, 16)` succeeds on every nonempty string of pure hex
digits. -/
lemma pyInt16Ok_all_hex (l : List Char) (hne : l ≠ [])
    (h : ∀ c ∈ l, isHexDigitPy c = true) : pyInt16Ok (String.mk l) = true := by
  unfold pyInt16Ok
  have hdata : (String.mk l).data = l := rfl
  rw [hdata, pyStripSpaces_eq l (fun c hc => isPySpace_of_hex c (h c hc))]
  obtain ⟨a, t, rfl⟩ : ∃ a t, l = a :: t := by
    cases l with
    | nil => exact absurd rfl hne
    | cons a t => exact ⟨a, t, rfl⟩
  have ha := h a (by simp)
  have hsign : (match a :: t with
      | '+' :: r => r
      | '-' :: r => r
      | r => r) = a :: t := by
    split
    · rename_i heq
      injection heq with e1 _
      subst e1
      exact absurd ha (by decide)
    · rename_i heq
      injection heq with e1 _
      subst e1
      exact absurd ha (by decide)
    · rfl
  dsimp only
  rw [hsign]
  split
  · rename_i r heq
    injection heq with e1 e2
    have : isHexDigitPy 'x' = true := by
      apply h
      rw [e2]
      simp
    exact absurd this (by decide)
  · rename_i r heq
    injection heq with e1 e2
    have : isHexDigitPy 'X' = true := by
      apply h
      rw [e2]
      simp
    exact absurd this (by decide)
  · exact hexDigitsPart_all (a :: t) (by simp) h

/-- A 64-character input for the hash-format check that is accepted although
it contains characters that are not hexadecimal digits. -/
def claim5Hash : String := "0x" ++ String.mk (List.replicate 62 'a')

/-- C5 counterexample: the hash check accepts a 64-character string starting
with `0x`, whose character `x` is not a hexadecimal digit, because
`int(s, 16)` accepts the prefix; so "accepts iff exact length and all hex
digits" fails in the only-if direction. -/
theorem claim5_counterexample :
    isValidHashStr claim5Hash 64 = true ∧
    ((claim5Hash.data.all fun c => isHexDigitPy c) = false) := by decide

/-- C5 amended: an accepted string always is nonempty of exactly the
expected length, and every nonempty string of exactly the expected length
consisting solely of hexadecimal digits is accepted; acceptance is however
wider than pure hex, since Python's `int(s, 16)` also admits a sign, an
`0x`/`0X` prefix, underscore separators and surrounding whitespace. -/
theorem claim5_amended (s : String) (n : Nat) :
    (isValidHashStr s n = true → s ≠ "" ∧ s.length = n) ∧
    (0 < n → s.length = n → (∀ c ∈ s.data, isHexDigitPy c = true) →
      isValidHashStr s n = true) := by
  constructor
  · intro hacc
    unfold isValidHashStr at hacc
    split at hacc
    · exact absurd hacc (by simp)
    · rename_i hc
      simp only [Bool.or_eq_true, decide_eq_true_eq, not_or] at hc
      push_neg at hc
      exact ⟨hc.1, hc.2⟩
  · intro hn hlen hhex
    have hne : s ≠ "" := by
      intro e
      subst e
      simp at hlen
      omega
    unfold isValidHashStr
    rw [if_neg]
    · obtain ⟨l⟩ := s
      have hl : l ≠ [] := by
        intro e
        subst e
        simp [String.length] at hlen
        omega
      exact pyInt16Ok_all_hex l hl hhex
    · simp [hne, hlen]

/-- Witness for C5 amended at the concrete input `"ab"`, `n = 2`. -/
theorem claim5_amended_witness : isValidHashStr "ab" 2 = true :=
  (claim5_amended "ab" 2).2 (by decide) (by decide) (by decide)

/-- C6 counterexample: five and six issues both clamp the score to 0, so the
score is not strictly decreasing in the number of issues. -/
theorem claim6_counterexample :
    calcQualityScore ["a", "b", "c", "d", "e"] [] =
      calcQualityScore ["a", "b", "c", "d", "e", "f"] [] ∧
    (["a", "b", "c", "d", "e"] : List String).length <
      (["a", "b", "c", "d", "e", "f"] : List String).length := by
  constructor
  · norm_num [calcQualityScore]
  · decide

/-- C6 amended: the quality score equals
`clamp(1.0 − 0.2·issues − 0.05·warnings, 0.0, 1.0)`, always lies in
`[0, 1]`, is non-increasing in the number of issues and in the number of
warnings, and is strictly decreasing in each as long as the larger score is
still positive (strictness fails only once the score is clamped at 0). -/
theorem claim6_amended (issues warnings : List String) :
    calcQualityScore issues warnings
      = max 0 (min 1 (1 - (issues.length : Rat) * (1 / 5) - (warnings.length : Rat) * (1 / 20)))
    ∧ 0 ≤ calcQualityScore issues warnings
    ∧ calcQualityScore issues warnings ≤ 1
    ∧ (∀ issues2 : List String, issues.length ≤ issues2.length →
        calcQualityScore issues2 warnings ≤ calcQualityScore issues warnings)
    ∧ (∀ warnings2 : List String, warnings.length ≤ warnings2.length →
        calcQualityScore issues warnings2 ≤ calcQualityScore issues warnings)
    ∧ (∀ issues2 : List String, issues.length < issues2.length →
        0 < calcQualityScore issues2 warnings →
        calcQualityScore issues2 warnings < calcQualityScore issues warnings)
    ∧ (∀ warnings2 : List String, warnings.length < warnings2.length →
        0 < calcQualityScore issues warnings2 →
        calcQualityScore issues warnings2 < calcQualityScore issues warnings) := by
  have ha : (0 : Rat) ≤ (issues.length : Rat) := by positivity
  have hb : (0 : Rat) ≤ (warnings.length : Rat) := by positivity
  have hX1 : 1 - (issues.length : Rat) * (1 / 5) - (warnings.length : Rat) * (1 / 20) ≤ 1 := by
    nlinarith
  refine ⟨?_, ?_, ?_, ?_, ?_, ?_, ?_⟩
  · unfold calcQualityScore
    rw [min_eq_right hX1]
  · exact le_max_left 0 _
  · exact max_le (by norm_num) hX1
  · intro issues2 hle
    unfold calcQualityScore
    apply max_le_max le_rfl
    have : (issues.length : Rat) ≤ (issues2.length : Rat) := by exact_mod_cast hle
    nlinarith
  · intro warnings2 hle
    unfold calcQualityScore
    apply max_le_max le_rfl
    have : (warnings.length : Rat) ≤ (warnings2.length : Rat) := by exact_mod_cast hle
    nlinarith
  · intro issues2 hlt hpos
    have hlt' : (issues.length : Rat) < (issues2.length : Rat) := by exact_mod_cast hlt
    unfold calcQualityScore at hpos ⊢
    have h2 : (0 : Rat) <
        1 - (issues2.length : Rat) * (1 / 5) - (warnings.length : Rat) * (1 / 20) := by
      rcases lt_max_iff.mp hpos with h | h
      · exact absurd h (by norm_num)
      · exact h
    rw [max_eq_right h2.le]
    calc 1 - (issues2.length : Rat) * (1 / 5) - (warnings.length : Rat) * (1 / 20)
        < 1 - (issues.length : Rat) * (1 / 5) - (warnings.length : Rat) * (1 / 20) := by nlinarith
      _ ≤ _ := le_max_right 0 _
  · intro warnings2 hlt hpos
    have hlt' : (warnings.length : Rat) < (warnings2.length : Rat) := by exact_mod_cast hlt
    unfold calcQualityScore at hpos ⊢
    have h2 : (0 : Rat) <
        1 - (issues.length : Rat) * (1 / 5) - (warnings2.length : Rat) * (1 / 20) := by
      rcases lt_max_iff.mp hpos with h | h
      · exact absurd h (by norm_num)
      · exact h
    rw [max_eq_right h2.le]
    calc 1 - (issues.length : Rat) * (1 / 5) - (warnings2.length : Rat) * (1 / 20)
        < 1 - (issues.length : Rat) * (1 / 5) - (warnings.length : Rat) * (1 / 20) := by nlinarith
      _ ≤ _ := le_max_right 0 _

/-- Witness for C6 amended: one issue lowers the score of an empty-issue
record. -/
theorem claim6_amended_witness :
    calcQualityScore ["x"] [] ≤ calcQualityScore [] [] :=
  (claim6_amended [] []).2.2.2.1 ["x"] (by decide)

/-- An `Except` computation that returns normally. -/
def returnsOk {α : Type} (e : Except PyErr α) : Prop := ∃ a, e = Except.ok a

/-- Bind preserves normal return when both stages return normally. -/
lemma returnsOk_bind {α β : Type} {e : Except PyErr α} {f : α → Except PyErr β}
    (he : returnsOk e) (hf : ∀ a, returnsOk (f a)) : returnsOk (e >>= f) := by
  obtain ⟨a, rfl⟩ := he
  exact hf a

/-- A conditional of two normally-returning computations returns normally. -/
lemma returnsOk_ite {α : Type} {c : Prop} [Decidable c] {e1 e2 : Except PyErr α}
    (h1 : returnsOk e1) (h2 : returnsOk e2) : returnsOk (if c then e1 else e2) := by
  by_cases hc : c <;> simp [hc, h1, h2]

/-- A conditional whose condition is false returns normally when its else
branch does. -/
lemma returnsOk_ite_neg {α : Type} {c : Prop} [Decidable c] {e1 e2 : Except PyErr α}
    (hc : ¬c) (h2 : returnsOk e2) : returnsOk (if c then e1 else e2) := by
  rw [if_neg hc]; exact h2

/-- On a string argument, `_is_valid_hash` never raises and agrees with the
string-level check. -/
lemma isValidHash_str (s : String) (n : Nat) :
    isValidHash (PyVal.str s) n = .ok (isValidHashStr s n) := by
  unfold isValidHash isValidHashStr pyTruthy pyLen
  by_cases hs : s = ""
  · subst hs; simp
  · by_cases hl : s.length = n
    · simp only [hs, hl, decide_not]
      simp [hs, hl]
      show (if n = n then Except.ok (pyInt16Ok s) else Except.ok false) =
        Except.ok (pyInt16Ok s)
      rw [if_pos rfl]
    · simp [hs, hl]
      show (if s.length = n then Except.ok (pyInt16Ok s) else Except.ok false) =
        Except.ok false
      rw [if_neg hl]

/-- A dict field that is an int whenever present. -/
def wtInt (d : PyDict) (k : String) : Prop :=
  ∀ v, pyLookup d k = some v → ∃ i, v = PyVal.int i

/-- A dict field that is a string whenever present. -/
def wtStr (d : PyDict) (k : String) : Prop :=
  ∀ v, pyLookup d k = some v → ∃ s, v = PyVal.str s

/-- A dict field that is a datetime whenever present. -/
def wtDt (d : PyDict) (k : String) : Prop :=
  ∀ v, pyLookup d k = some v → ∃ t, v = PyVal.dt t

/-- Reading an int-typed field with an int default yields an int. -/
lemma wtInt_getD {d : PyDict} {k : String} (h : wtInt d k) (i : Int) :
    ∃ j, pyGetD d k (.int i) = .int j := by
  unfold pyGetD
  cases hl : pyLookup d k with
  | none => exact ⟨i, rfl⟩
  | some v =>
      obtain ⟨j, rfl⟩ := h v hl
      exact ⟨j, rfl⟩

/-- Reading a string-typed field with a string default yields a string. -/
lemma wtStr_getD {d : PyDict} {k : String} (h : wtStr d k) (s0 : String) :
    ∃ t, pyGetD d k (.str s0) = .str t := by
  unfold pyGetD
  cases hl : pyLookup d k with
  | none => exact ⟨s0, rfl⟩
  | some v =>
      obtain ⟨t, rfl⟩ := h v hl
      exact ⟨t, rfl⟩

/-- Reading a datetime-typed field with a `None` default yields `None` or a
datetime. -/
lemma wtDt_getD {d : PyDict} {k : String} (h : wtDt d k) :
    pyGetD d k .none = .none ∨ ∃ t, pyGetD d k .none = .dt t := by
  unfold pyGetD
  cases hl : pyLookup d k with
  | none => exact Or.inl rfl
  | some v =>
      obtain ⟨t, rfl⟩ := h v hl
      exact Or.inr ⟨t, rfl⟩

/-- Fields of a Solana transaction dict carrying the types the collector
supplies (the remaining required fields are only membership-tested). -/
def solTxWellTyped (d : PyDict) : Prop :=
  wtInt d "fee" ∧ wtStr d "signature"

/-- The Solana transaction validator returns normally on well-typed
input. -/
lemma validateSolanaTransaction_ok (d : PyDict) (h : solTxWellTyped d) :
    returnsOk (validateSolanaTransaction d) := by
  obtain ⟨hfee, hsig⟩ := h
  obtain ⟨fee, hfee'⟩ := wtInt_getD hfee (-1)
  obtain ⟨sig, hsig'⟩ := wtStr_getD hsig ""
  unfold validateSolanaTransaction
  rw [hfee', hsig']
  repeat' first
    | exact ⟨_, rfl⟩
    | apply returnsOk_ite
    | apply returnsOk_bind
    | intro _

/-- Fields of a Bitcoin block dict carrying the types the collector
supplies. -/
def btcBlockWellTyped (d : PyDict) : Prop :=
  wtInt d "block_height" ∧ wtInt d "size" ∧ wtInt d "weight" ∧ wtInt d "difficulty" ∧
  wtInt d "transaction_count" ∧ wtDt d "timestamp" ∧ wtStr d "block_hash" ∧
  wtStr d "merkle_root"

/-- Fields of a Bitcoin transaction dict carrying the types the collector
supplies. -/
def btcTxWellTyped (d : PyDict) : Prop :=
  wtInt d "fee" ∧ wtInt d "input_count" ∧ wtInt d "output_count" ∧ wtStr d "tx_hash"

/-- Fields of a Solana block dict carrying the types the collector
supplies. -/
def solBlockWellTyped (d : PyDict) : Prop :=
  wtInt d "slot" ∧ wtInt d "block_height" ∧ wtInt d "parent_slot" ∧ wtDt d "timestamp" ∧
  wtInt d "transaction_count"

set_option maxHeartbeats 2000000 in
/-- The Bitcoin block validator returns normally on well-typed input. -/
lemma validateBitcoinBlockCore_ok (now : Int) (d : PyDict) (h : btcBlockWellTyped d) :
    returnsOk (validateBitcoinBlockCore now d) := by
  obtain ⟨hbh, hsz, hwt, hdf, htc, hts, hbhash, hmroot⟩ := h
  obtain ⟨bh, hbh'⟩ := wtInt_getD hbh (-1)
  obtain ⟨sz, hsz'⟩ := wtInt_getD hsz 0
  obtain ⟨wt, hwt'⟩ := wtInt_getD hwt 0
  obtain ⟨df, hdf'⟩ := wtInt_getD hdf 0
  obtain ⟨tc, htc'⟩ := wtInt_getD htc 0
  obtain ⟨bhs, hbhs'⟩ := wtStr_getD hbhash ""
  obtain ⟨mrs, hmrs'⟩ := wtStr_getD hmroot ""
  unfold validateBitcoinBlockCore
  rw [hbh', hsz', hwt', hdf', htc', hbhs', hmrs']
  rcases wtDt_getD hts with hts' | ⟨t, hts'⟩ <;> rw [hts'] <;>
    repeat' first
      | exact ⟨_, rfl⟩
      | exact ⟨_, isValidHash_str _ _⟩
      | refine returnsOk_ite_neg (by decide) ?_
      | apply returnsOk_ite
      | apply returnsOk_bind
      | intro _

/-- The Bitcoin transaction validator returns normally on well-typed
input. -/
lemma validateBitcoinTransaction_ok (d : PyDict) (h : btcTxWellTyped d) :
    returnsOk (validateBitcoinTransaction d) := by
  obtain ⟨hfee, hic, hoc, hth⟩ := h
  obtain ⟨fee, hfee'⟩ := wtInt_getD hfee (-1)
  obtain ⟨ic, hic'⟩ := wtInt_getD hic 0
  obtain ⟨oc, hoc'⟩ := wtInt_getD hoc 0
  obtain ⟨th, hth'⟩ := wtStr_getD hth ""
  unfold validateBitcoinTransaction
  rw [hfee', hic', hoc', hth']
  repeat' first
    | exact ⟨_, rfl⟩
    | exact ⟨_, isValidHash_str _ _⟩
    | apply returnsOk_ite
    | apply returnsOk_bind
    | intro _

/-- The Solana block validator returns normally on well-typed input. -/
lemma validateSolanaBlock_ok (now : Int) (d : PyDict) (h : solBlockWellTyped d) :
    returnsOk (validateSolanaBlock now d) := by
  obtain ⟨hsl, hbh, hps, hts, htc⟩ := h
  obtain ⟨sl, hsl'⟩ := wtInt_getD hsl 0
  obtain ⟨bh, hbh'⟩ := wtInt_getD hbh 0
  obtain ⟨ps, hps'⟩ := wtInt_getD hps 0
  obtain ⟨tc, htc'⟩ := wtInt_getD htc 0
  unfold validateSolanaBlock
  rw [hsl', hbh', hps', htc']
  rcases wtDt_getD hts with hts' | ⟨t, hts'⟩ <;> rw [hts'] <;>
    repeat' first
      | exact ⟨_, rfl⟩
      | apply returnsOk_ite
      | apply returnsOk_bind
      | intro _

/-- C4 counterexample: a string-valued `block_height` makes
`validate_bitcoin_block` raise a `TypeError` at the comparison
`block_data.get('block_height', -1) < 0`, so the validators can raise on
fields of unexpected type. -/
theorem claim4_counterexample :
    validateBitcoinBlock 0 initialCounts [("block_height", PyVal.str "forty")] =
      .error (.typeError "unorderable operand types for comparison") := rfl

/-- C4 amended: each validator operation returns a `ValidationResult` and
never raises on every input dict whose present fields have the types the
collectors supply (ints for numeric fields, datetimes for timestamps,
strings for hashes and signatures); absent fields only produce issues or
warnings.  Fields of unexpected type can raise `TypeError`, as the
counterexample shows. -/
theorem claim4_amended (now : Int) (c : ValidationCounts)
    (d1 d2 d3 d4 : PyDict)
    (h1 : btcBlockWellTyped d1) (h2 : btcTxWellTyped d2)
    (h3 : solBlockWellTyped d3) (h4 : solTxWellTyped d4) :
    (∃ r, validateBitcoinBlock now c d1 = .ok r) ∧
    (∃ r, validateBitcoinTransaction d2 = .ok r) ∧
    (∃ r, validateSolanaBlock now d3 = .ok r) ∧
    (∃ r, validateSolanaTransaction d4 = .ok r) := by
  refine ⟨?_, validateBitcoinTransaction_ok d2 h2, validateSolanaBlock_ok now d3 h3,
    validateSolanaTransaction_ok d4 h4⟩
  obtain ⟨r, hr⟩ := validateBitcoinBlockCore_ok now d1 h1
  exact ⟨(bumpBitcoinCounts c r, r), by unfold validateBitcoinBlock; rw [hr]; rfl⟩

/-- Witness for C4 amended at a concrete partial dict. -/
theorem claim4_amended_witness :
    ∃ r, validateBitcoinBlock 0 initialCounts [("size", PyVal.int 5)] = .ok r := by
  have h := claim4_amended 0 initialCounts [("size", PyVal.int 5)] [] [] []
  refine (h ?_ ?_ ?_ ?_).1
  · refine ⟨?_, ?_, ?_, ?_, ?_, ?_, ?_, ?_⟩ <;>
      intro v hv <;> simp [pyLookup] at hv <;> exact ⟨5, hv.symm⟩
  · exact ⟨fun v hv => by simp [pyLookup] at hv, fun v hv => by simp [pyLookup] at hv,
      fun v hv => by simp [pyLookup] at hv, fun v hv => by simp [pyLookup] at hv⟩
  · exact ⟨fun v hv => by simp [pyLookup] at hv, fun v hv => by simp [pyLookup] at hv,
      fun v hv => by simp [pyLookup] at hv, fun v hv => by simp [pyLookup] at hv,
      fun v hv => by simp [pyLookup] at hv⟩
  · exact ⟨fun v hv => by simp [pyLookup] at hv, fun v hv => by simp [pyLookup] at hv⟩

/-- One call to a public validator operation, with its arguments. -/
inductive ValidatorOp where
  | btcBlock (now : Int) (d : PyDict)
  | btcTx (d : PyDict)
  | solBlock (now : Int) (d : PyDict)
  | solTx (d : PyDict)

/-- Effect of one validator call on the cumulative counters: only
`validate_bitcoin_block` touches `self.validation_counts`, and a call that
raises leaves them unchanged because the update in the source happens after
the last statement that can raise. -/
def validatorStep (c : ValidationCounts) : ValidatorOp → ValidationCounts
  | .btcBlock now d =>
      match validateBitcoinBlock now c d with
      | .ok (c', _) => c'
      | .error _ => c
  | .btcTx _ => c
  | .solBlock _ _ => c
  | .solTx _ => c

/-- Counters after a sequence of validator calls starting from a fresh
`DataValidator`. -/
def runValidator (c : ValidationCounts) (ops : List ValidatorOp) : ValidationCounts :=
  ops.foldl validatorStep c

/-- Whether a call is a `validate_bitcoin_block` call that runs to
completion (does not raise). -/
def opCompleted : ValidatorOp → Bool
  | .btcBlock now d =>
      match validateBitcoinBlockCore now d with
      | .ok _ => true
      | .error _ => false
  | _ => false

/-- One call increments `total` exactly when it is a completed
`validate_bitcoin_block` call. -/
lemma validatorStep_total (c : ValidationCounts) (op : ValidatorOp) :
    (validatorStep c op).total = c.total + (if opCompleted op = true then 1 else 0) := by
  cases op with
  | btcBlock now d =>
      unfold validatorStep opCompleted validateBitcoinBlock
      cases h : validateBitcoinBlockCore now d with
      | ok r =>
          simp only [h, Except.map]
          unfold bumpBitcoinCounts
          split
          · simp
          · split <;> simp
      | error e => simp [h, Except.map]
  | btcTx d => simp [validatorStep, opCompleted]
  | solBlock now d => simp [validatorStep, opCompleted]
  | solTx d => simp [validatorStep, opCompleted]

/-- One call preserves `total = passed + failed + warnings`. -/
lemma validatorStep_sum (c : ValidationCounts) (op : ValidatorOp)
    (h : c.total = c.passed + c.failed + c.warnings) :
    (validatorStep c op).total =
      (validatorStep c op).passed + (validatorStep c op).failed + (validatorStep c op).warnings := by
  cases op with
  | btcBlock now d =>
      unfold validatorStep validateBitcoinBlock
      cases hc : validateBitcoinBlockCore now d with
      | ok r =>
          simp only [hc, Except.map]
          unfold bumpBitcoinCounts
          split
          · simp; omega
          · split <;> simp <;> omega
      | error e => simpa [hc, Except.map] using h
  | btcTx d => simpa [validatorStep] using h
  | solBlock now d => simpa [validatorStep] using h
  | solTx d => simpa [validatorStep] using h

/-- Counter bookkeeping over a sequence of calls. -/
lemma runValidator_props : ∀ (ops : List ValidatorOp) (c : ValidationCounts),
    (runValidator c ops).total = c.total + (ops.filter (fun op => opCompleted op)).length ∧
    (c.total = c.passed + c.failed + c.warnings →
      (runValidator c ops).total =
        (runValidator c ops).passed + (runValidator c ops).failed +
          (runValidator c ops).warnings) := by
  intro ops
  induction ops with
  | nil => intro c; simp [runValidator]
  | cons op rest ih =>
      intro c
      constructor
      · have h1 := (ih (validatorStep c op)).1
        simp only [runValidator, List.foldl_cons] at h1 ⊢
        rw [h1, validatorStep_total]
        by_cases hc : opCompleted op = true <;> simp [hc, List.filter_cons] <;> omega
      · intro hsum
        have h2 := (ih (validatorStep c op)).2 (validatorStep_sum c op hsum)
        simpa [runValidator, List.foldl_cons] using h2

/-- C10 amended: after any sequence of validator calls, the invariant
`total = passed + failed + warnings` holds and `total` equals the number of
`validate_bitcoin_block` calls that run to completion (a call that raises
leaves every counter unchanged); the other three validator operations never
change any counter. -/
theorem claim10_amended (ops : List ValidatorOp) :
    (runValidator initialCounts ops).total =
      (runValidator initialCounts ops).passed + (runValidator initialCounts ops).failed +
        (runValidator initialCounts ops).warnings
    ∧ (runValidator initialCounts ops).total =
        (ops.filter (fun op => opCompleted op)).length
    ∧ (∀ c d, validatorStep c (.btcTx d) = c)
    ∧ (∀ c now d, validatorStep c (.solBlock now d) = c)
    ∧ (∀ c d, validatorStep c (.solTx d) = c) := by
  refine ⟨(runValidator_props ops initialCounts).2 rfl, ?_, fun c d => rfl,
    fun c now d => rfl, fun c d => rfl⟩
  have := (runValidator_props ops initialCounts).1
  simpa [initialCounts] using this

/-- A single `validate_bitcoin_block` call that raises before the counter
update. -/
def claim10Ops : List ValidatorOp :=
  [ValidatorOp.btcBlock 0 [("block_height", PyVal.str "deadline")]]

/-- C10 counterexample: after one `validate_bitcoin_block` call on an
ill-typed dict the call raises, so `total` is 0 and differs from the number
of calls, 1. -/
theorem claim10_counterexample :
    (runValidator initialCounts claim10Ops).total = 0 ∧ claim10Ops.length = 1 :=
  ⟨rfl, rfl⟩

/-- Witness for C10 amended on the empty call sequence. -/
theorem claim10_amended_witness :
    (runValidator initialCounts []).total =
      (runValidator initialCounts []).passed + (runValidator initialCounts []).failed +
        (runValidator initialCounts []).warnings :=
  (claim10_amended []).1

/-- A well-formed 64-hex-character hash used in the C1 environment. -/
def claim1Hash : String := String.mk (List.replicate 64 'a')

/-- Transport environment in which every fetch of the Bitcoin collect path
succeeds: tip 100, then hash, block metadata and transaction ids for block
100. -/
def claim1Env : BitcoinEnv :=
  { resp := fun i =>
      match i with
      | 0 => .ok (.str "100")
      | 1 => .ok (.str claim1Hash)
      | 2 => .ok (.dict [("id", .str claim1Hash), ("timestamp", .int 1700000000),
                         ("previousblockhash", .str claim1Hash),
                         ("merkle_root", .str claim1Hash), ("difficulty", .int 5),
                         ("nonce", .int 7), ("size", .int 100), ("weight", .int 400),
                         ("tx_count", .int 1)])
      | 3 => .ok (.list [.str claim1Hash])
      | _ => .notFound
    now := 1700000100 }

/-- A freshly constructed enabled Bitcoin collector whose backoff delay has
grown to 8 seconds (as after a few rate-limit responses). -/
def claim1State : BitcoinCollectorState := { bitcoinInit true with retryDelay := 8 }

/-- C1: the code contradicts the claim on its success path.  With the tip
resolved (100), the cursor set (99), and block and transaction ids all
fetched without error, `collect()` raises `AttributeError` when it reads
`self.validator` — the initialization `self.validator = DataValidator()`
sits after the unconditional `raise` ending `_api_call_with_retry` and is
never executed — so no block row and no transaction row is persisted, the
cursor stays at 99 instead of advancing, the retry delay stays 8 instead of
being halved, and the metric row reports one error. -/
theorem claim1_code_bug :
    metricsOf (bitcoinCollect claim1Env claim1State).2 =
      [{ source := "bitcoin", recordsCollected := 0, errorCount := 1,
         errorMessage := "'BitcoinCollector' object has no attribute 'validator'" }]
    ∧ rowsInsertedTo "bitcoin_blocks" (bitcoinCollect claim1Env claim1State).2 = 0
    ∧ rowsInsertedTo "bitcoin_transactions" (bitcoinCollect claim1Env claim1State).2 = 0
    ∧ (bitcoinCollect claim1Env claim1State).1.lastBlockHeight = some 99
    ∧ (bitcoinCollect claim1Env claim1State).1.retryDelay = 8 :=
  ⟨rfl, rfl, rfl, rfl, rfl⟩

/-- A Solana transport in which the first POST fails and a second attempt
would succeed. -/
def claim2Env : SolanaEnv :=
  { resp := fun i =>
      match i with
      | 0 => .error (.exc "connection reset by peer")
      | _ => .ok (.dict [("result", .int 7)])
    now := 0 }

/-- C2 counterexample: on a transport whose first response is a connection
error and whose second would succeed, the Solana adapter's `rpc_call`
surfaces the failure immediately after consuming a single response — it
never retries, so it does not apply the shared backoff policy. -/
theorem claim2_counterexample :
    (solanaRpcCall claim2Env 0).1 = .error (.exc "connection reset by peer") ∧
    (solanaRpcCall claim2Env 0).2 = 1 :=
  ⟨rfl, rfl⟩

/-- C2 amended: only the Bitcoin adapter applies the backoff policy to its
transport calls — it retries a transient failure and distinguishes retry
exhaustion (raising after `max_retries` attempts) from success — while the
Solana adapter's `rpc_call` performs exactly one transport call per
invocation and surfaces any transport error without retrying. -/
theorem claim2_amended :
    (∀ (env : Nat → HttpResp) (idx : Nat) (delay maxDelay : Int) (v : PyVal),
        env idx = HttpResp.timeout → env (idx + 1) = HttpResp.ok v →
        apiCall env idx delay maxDelay = (.ok (some v), delay, idx + 2)) ∧
    (∀ (env : Nat → HttpResp) (idx : Nat) (delay maxDelay : Int),
        env idx = HttpResp.timeout → env (idx + 1) = HttpResp.timeout →
        env (idx + 2) = HttpResp.timeout →
        apiCall env idx delay maxDelay = (.error .timeoutErr, delay, idx + 3)) ∧
    (∀ (env : SolanaEnv) (idx : Nat), (solanaRpcCall env idx).2 = idx + 1) ∧
    (∀ (env : SolanaEnv) (idx : Nat) (e : PyErr),
        env.resp idx = .error e → (solanaRpcCall env idx).1 = .error e) := by
  refine ⟨?_, ?_, fun env idx => rfl, ?_⟩
  · intro env idx delay maxD v h1 h2
    unfold apiCall
    simp only [apiCallGo, h1, h2]
    norm_num
  · intro env idx delay maxD h1 h2 h3
    unfold apiCall
    simp only [apiCallGo, h1, h2, h3]
    norm_num
  · intro env idx e h
    unfold solanaRpcCall
    rw [h]

/-- C3 counterexample: three consecutive 429 responses exhaust the
`max_retries = 3` budget (each `continue` consumes an attempt), and the call
raises the final retry-exhausted exception — so rate limiting alone can
surface a fatal error.  The delay still doubled on each 429 (1 → 8). -/
theorem claim3_counterexample :
    (apiCall (fun _ => HttpResp.rateLimited Option.none) 0 1 300).1 =
      .error (.exc "Failed to fetch after 3 attempts") ∧
    (apiCall (fun _ => HttpResp.rateLimited Option.none) 0 1 300).2.1 = 8 :=
  ⟨rfl, rfl⟩

/-- Repeated application of the 429 delay update
`delay = min(delay * 2, ceiling)`. -/
def capDouble (maxD : Int) : Nat → Int → Int
  | 0, d => d
  | k + 1, d => capDouble maxD k (min (d * 2) maxD)

/-- Behaviour of the retry loop on a run of leading 429 responses shorter
than the remaining attempt budget. -/
lemma apiCallGo_rateLimited (env : Nat → HttpResp) (m : Nat) (maxD : Int) :
    ∀ (k : Nat) (r : Nat) (idx : Nat) (d : Int) (v : PyVal),
      k < r →
      (∀ j, j < k → env (idx + j) = HttpResp.rateLimited Option.none) →
      env (idx + k) = HttpResp.ok v →
      apiCallGo env m maxD r idx d = (.ok (some v), capDouble maxD k d, idx + k + 1) := by
  intro k
  induction k with
  | zero =>
      intro r idx d v hr h429 hok
      obtain ⟨r', rfl⟩ : ∃ r', r = r' + 1 := ⟨r - 1, by omega⟩
      rw [show idx + 0 = idx from rfl] at hok
      simp only [apiCallGo, hok]
      rfl
  | succ k ih =>
      intro r idx d v hr h429 hok
      obtain ⟨r', rfl⟩ : ∃ r', r = r' + 1 := ⟨r - 1, by omega⟩
      have h0 : env idx = HttpResp.rateLimited Option.none := by
        have h := h429 0 (by omega)
        rwa [show idx + 0 = idx from rfl] at h
      simp only [apiCallGo, h0]
      have hstep := ih r' (idx + 1) (min (d * 2) maxD) v (by omega)
        (fun j hj => by
          have h := h429 (j + 1) (by omega)
          rwa [show idx + (j + 1) = idx + 1 + j from by omega] at h)
        (by rwa [show idx + 1 + k = idx + (k + 1) from by omega])
      rw [hstep, show idx + 1 + k + 1 = idx + (k + 1) + 1 from by omega]
      rfl

/-- C3 amended: a 429 response is retried after waiting, with the delay
doubled and capped at the ceiling, but each 429 consumes one of the
`max_retries = 3` attempts: for any run of fewer than 3 consecutive 429
responses followed by a success, the fetch returns the payload with the
delay doubled per 429 (capped); 3 consecutive 429s instead exhaust the
budget and raise. -/
theorem claim3_amended (env : Nat → HttpResp) (idx k : Nat) (d maxD : Int) (v : PyVal)
    (hk : k < 3)
    (h429 : ∀ j, j < k → env (idx + j) = HttpResp.rateLimited Option.none)
    (hok : env (idx + k) = HttpResp.ok v) :
    apiCall env idx d maxD = (.ok (some v), capDouble maxD k d, idx + k + 1) :=
  apiCallGo_rateLimited env 3 maxD k 3 idx d v hk h429 hok

/-- Two 429 responses followed by a success. -/
def claim3WEnv : Nat → HttpResp := fun i =>
  match i with
  | 0 => .rateLimited Option.none
  | 1 => .rateLimited Option.none
  | _ => .ok (.str "100")

/-- Witness for C3 amended: two 429s then success, delay 1 → 4, three
responses consumed. -/
theorem claim3_amended_witness :
    apiCall claim3WEnv 0 1 300 = (.ok (some (.str "100")), 4, 3) :=
  claim3_amended claim3WEnv 0 2 1 300 (.str "100") (by omega)
    (fun j hj => by
      match j, hj with
      | 0, _ => rfl
      | 1, _ => rfl)
    rfl

/-- A trivial Bitcoin transport environment. -/
def claim7BEnv : BitcoinEnv := { resp := fun _ => HttpResp.notFound, now := 0 }

/-- A trivial Solana transport environment. -/
def claim7SEnv : SolanaEnv := { resp := fun _ => .ok (.dict []), now := 0 }

/-- C7 counterexample: a disabled collector returns before the
`try`/`finally` of `collect()` and inserts nothing at all — in particular no
`CollectionMetric` row — refuting "exactly one metric row regardless of
branch taken" for the disabled branch. -/
theorem claim7_counterexample :
    (bitcoinCollect claim7BEnv (bitcoinInit false)).2 = [] ∧
    (solanaCollect claim7SEnv (solanaInit false)).2 = [] :=
  ⟨rfl, rfl⟩

/-- Quality logging never inserts a metric row. -/
lemma metricsOf_logQualityIssue (source recordType recordId : String) (r : ValidationResult) :
    metricsOf (logQualityIssue source recordType recordId r) = [] := by
  unfold logQualityIssue
  split <;> rfl

/-- Metric extraction distributes over concatenation. -/
lemma metricsOf_append (a b : List SinkInsert) :
    metricsOf (a ++ b) = metricsOf a ++ metricsOf b := by
  unfold metricsOf
  exact List.filterMap_append a b _

/-- No metrics in an empty insert list. -/
lemma metricsOf_nil : metricsOf [] = [] := rfl

/-- A data-row insert is not a metric row. -/
lemma metricsOf_rows (t : String) (v : List (List PyVal)) (c : List String)
    (l : List SinkInsert) : metricsOf (SinkInsert.rows t v c :: l) = metricsOf l := rfl

/-- A quality insert is not a metric row. -/
lemma metricsOf_quality (a b c : String) (i w : Nat) (l : List SinkInsert) :
    metricsOf (SinkInsert.quality a b c i w :: l) = metricsOf l := rfl

/-- A metric insert contributes exactly its row. -/
lemma metricsOf_metric (m : CollectionMetric) (l : List SinkInsert) :
    metricsOf (SinkInsert.metric m :: l) = m :: metricsOf l := rfl

/-- The Bitcoin per-unit processing inserts no metric rows. -/
lemma bitcoinFetchUnit_no_metric (env : BitcoinEnv) (idx : Nat) (bh : Int)
    (s : BitcoinCollectorState) :
    metricsOf (bitcoinFetchUnit env idx bh s).inserts = [] := by
  unfold bitcoinFetchUnit
  repeat' split
  all_goals simp [metricsOf_append, metricsOf_logQualityIssue, metricsOf_nil,
    metricsOf_rows, metricsOf_quality]

/-- The `try` block of Bitcoin `collect()` inserts no metric rows. -/
lemma bitcoinBody_no_metric (env : BitcoinEnv) (s : BitcoinCollectorState) :
    metricsOf (bitcoinBody env s).inserts = [] := by
  unfold bitcoinBody
  repeat' first
    | split
    | dsimp only
  all_goals first
    | rfl
    | apply bitcoinFetchUnit_no_metric

/-- The Solana block processing inserts no metric rows. -/
lemma solanaProcessBlock_no_metric (now slot : Int) (block : PyVal)
    (s : SolanaCollectorState) :
    metricsOf (solanaProcessBlock now slot block s).inserts = [] := by
  unfold solanaProcessBlock
  repeat' first
    | split
    | dsimp only
  all_goals simp [metricsOf_append, metricsOf_logQualityIssue, metricsOf_nil,
    metricsOf_rows, metricsOf_quality]

/-- The `try` block of Solana `collect()` inserts no metric rows. -/
lemma solanaBody_no_metric (env : SolanaEnv) (s : SolanaCollectorState) :
    metricsOf (solanaBody env s).inserts = [] := by
  unfold solanaBody solanaAfterInit
  repeat' first
    | split
    | dsimp only
  all_goals first
    | rfl
    | apply solanaProcessBlock_no_metric

/-- C7 amended: for every `collect()` call on an enabled adapter, exactly
one `CollectionMetric` row is inserted regardless of which branch is taken
(no new unit, not-found, success, or error); a disabled adapter inserts
nothing. -/
theorem claim7_amended :
    (∀ (env : BitcoinEnv) (s : BitcoinCollectorState), s.enabled = true →
       (metricsOf (bitcoinCollect env s).2).length = 1) ∧
    (∀ (env : SolanaEnv) (s : SolanaCollectorState), s.enabled = true →
       (metricsOf (solanaCollect env s).2).length = 1) := by
  constructor
  · intro env s hs
    unfold bitcoinCollect
    rw [hs]
    simp [metricsOf_append, bitcoinBody_no_metric, metricsOf_nil, metricsOf_metric]
  · intro env s hs
    unfold solanaCollect
    rw [hs]
    simp [metricsOf_append, solanaBody_no_metric, metricsOf_nil, metricsOf_metric]

/-- Witness for C7 amended on a concrete enabled collector. -/
theorem claim7_amended_witness :
    (metricsOf (bitcoinCollect claim7BEnv (bitcoinInit true)).2).length = 1 :=
  claim7_amended.1 claim7BEnv (bitcoinInit true) rfl

/-- A call whose first response succeeds returns the payload, leaves the
delay unchanged, and consumes one response. -/
lemma apiCall_ok (env : Nat → HttpResp) (idx : Nat) (d maxD : Int) (v : PyVal)
    (h : env idx = HttpResp.ok v) : apiCall env idx d maxD = (.ok (some v), d, idx + 1) := by
  unfold apiCall
  simp only [apiCallGo, h]

/-- A call whose first response is 404 returns `None`, leaves the delay
unchanged, and consumes one response. -/
lemma apiCall_notFound (env : Nat → HttpResp) (idx : Nat) (d maxD : Int)
    (h : env idx = HttpResp.notFound) :
    apiCall env idx d maxD = (.ok Option.none, d, idx + 1) := by
  unfold apiCall
  simp only [apiCallGo, h]

/-- Bitcoin transport for C9: the tip fetch succeeds, the fetch of the unit
at cursor + 1 returns 404. -/
def claim9BEnv (tipStr : String) (brest : Nat → HttpResp) (bnow : Int) : BitcoinEnv :=
  { resp := fun i =>
      match i with
      | 0 => HttpResp.ok (PyVal.str tipStr)
      | 1 => HttpResp.notFound
      | n + 2 => brest n
    now := bnow }

/-- Solana transport for C9: `getSlot` succeeds, `getBlock` returns a null
result. -/
def claim9SEnv (slotN : Int) (srest : Nat → Except PyErr PyVal) (snow : Int) : SolanaEnv :=
  { resp := fun i =>
      match i with
      | 0 => Except.ok (PyVal.dict [("result", PyVal.int slotN)])
      | 1 => Except.ok (PyVal.dict [("result", PyVal.none)])
      | n + 2 => srest n
    now := snow }

/-- C9: when the fetch for the unit at cursor + 1 reports not-found (HTTP
404 for Bitcoin, a null `getBlock` result for Solana), `collect()` returns
with the cursor unchanged, zero records collected, and a single
`CollectionMetric` row with `error_count = 0` and an empty error message. -/
theorem claim9_not_found
    (c tipN : Int) (tipStr : String) (brest : Nat → HttpResp) (bnow : Int)
    (bs : BitcoinCollectorState)
    (hbe : bs.enabled = true) (hbc : bs.lastBlockHeight = some c)
    (hblt : c < tipN) (hbparse : pyInt10? tipStr = some tipN)
    (cs slotN : Int) (srest : Nat → Except PyErr PyVal) (snow : Int)
    (ss : SolanaCollectorState)
    (hse : ss.enabled = true) (hsc : ss.lastSlot = some cs) (hslt : cs < slotN) :
    (bitcoinCollect (claim9BEnv tipStr brest bnow) bs).1.lastBlockHeight = some c ∧
    (bitcoinCollect (claim9BEnv tipStr brest bnow) bs).2 =
      [SinkInsert.metric
        { source := "bitcoin", recordsCollected := 0, errorCount := 0, errorMessage := "" }] ∧
    (solanaCollect (claim9SEnv slotN srest snow) ss).1.lastSlot = some cs ∧
    (solanaCollect (claim9SEnv slotN srest snow) ss).2 =
      [SinkInsert.metric
        { source := "solana", recordsCollected := 0, errorCount := 0, errorMessage := "" }] := by
  have h0 : (claim9BEnv tipStr brest bnow).resp 0 = HttpResp.ok (PyVal.str tipStr) := rfl
  have h1 : (claim9BEnv tipStr brest bnow).resp 1 = HttpResp.notFound := rfl
  have hbit : bitcoinBody (claim9BEnv tipStr brest bnow) bs =
      ⟨0, [], { bs with retryDelay := bs.retryDelay }, Option.none⟩ := by
    unfold bitcoinBody
    rw [apiCall_ok _ _ _ _ _ h0]
    dsimp only [pyToInt]
    rw [hbparse]
    dsimp only
    rw [hbc]
    dsimp only
    rw [if_pos hblt]
    unfold bitcoinFetchUnit
    rw [apiCall_notFound _ _ _ _ h1]
  have hs0 : (claim9SEnv slotN srest snow).resp 0 =
      Except.ok (PyVal.dict [("result", PyVal.int slotN)]) := rfl
  have hs1 : (claim9SEnv slotN srest snow).resp 1 =
      Except.ok (PyVal.dict [("result", PyVal.none)]) := rfl
  have hsol : solanaBody (claim9SEnv slotN srest snow) ss = ⟨0, [], ss, Option.none⟩ := by
    unfold solanaBody solanaRpcCall
    rw [hs0]
    dsimp only
    rw [show pyDictGetD (PyVal.dict [("result", PyVal.int slotN)]) "result" PyVal.none =
      Except.ok (PyVal.int slotN) from rfl]
    dsimp only
    rw [hsc]
    dsimp only
    unfold solanaAfterInit
    dsimp only [pyLt]
    rw [show decide (cs < slotN) = true from decide_eq_true hslt]
    dsimp only
    unfold solanaRpcCall
    rw [show (claim9SEnv slotN srest snow).resp (0 + 1) =
      Except.ok (PyVal.dict [("result", PyVal.none)]) from rfl]
    rfl
  refine ⟨?_, ?_, ?_, ?_⟩
  · unfold bitcoinCollect
    rw [hbe]
    rw [if_neg (by decide)]
    rw [hbit]
    exact hbc
  · unfold bitcoinCollect
    rw [hbe]
    rw [if_neg (by decide)]
    rw [hbit]
    rfl
  · unfold solanaCollect
    rw [hse]
    rw [if_neg (by decide)]
    rw [hsol]
    exact hsc
  · unfold solanaCollect
    rw [hse]
    rw [if_neg (by decide)]
    rw [hsol]
    rfl

/-- Witness for C9 at cursor 99 and tip 100 for both adapters. -/
theorem claim9_witness :
    (bitcoinCollect (claim9BEnv "100" (fun _ => HttpResp.notFound) 0)
        { bitcoinInit true with lastBlockHeight := some 99 }).1.lastBlockHeight = some 99 ∧
    (bitcoinCollect (claim9BEnv "100" (fun _ => HttpResp.notFound) 0)
        { bitcoinInit true with lastBlockHeight := some 99 }).2 =
      [SinkInsert.metric
        { source := "bitcoin", recordsCollected := 0, errorCount := 0, errorMessage := "" }] ∧
    (solanaCollect (claim9SEnv 100 (fun _ => Except.ok (PyVal.dict [])) 0)
        { solanaInit true with lastSlot := some 99 }).1.lastSlot = some 99 ∧
    (solanaCollect (claim9SEnv 100 (fun _ => Except.ok (PyVal.dict [])) 0)
        { solanaInit true with lastSlot := some 99 }).2 =
      [SinkInsert.metric
        { source := "solana", recordsCollected := 0, errorCount := 0, errorMessage := "" }] :=
  claim9_not_found 99 100 "100" (fun _ => HttpResp.notFound) 0
    { bitcoinInit true with lastBlockHeight := some 99 } rfl rfl (by decide) (by decide)
    99 100 (fun _ => Except.ok (PyVal.dict [])) 0
    { solanaInit true with lastSlot := some 99 } rfl rfl (by decide)

/-- The Bitcoin per-unit processing leaves the cursor unchanged or sets it
to the processed height. -/
lemma bitcoinFetchUnit_cursor (env : BitcoinEnv) (idx : Nat) (bh : Int)
    (s : BitcoinCollectorState) :
    (bitcoinFetchUnit env idx bh s).state.lastBlockHeight = s.lastBlockHeight ∨
    (bitcoinFetchUnit env idx bh s).state.lastBlockHeight = some bh := by
  unfold bitcoinFetchUnit
  repeat' first
    | split
    | dsimp only
  all_goals simp

/-- Cursor monotonicity of the Bitcoin per-unit processing. -/
lemma bitcoinFetchUnit_mono (env : BitcoinEnv) (idx : Nat) (bh : Int)
    (s : BitcoinCollectorState) (v : Int)
    (hs : s.lastBlockHeight = some v) (hv : v ≤ bh) :
    ∃ w, (bitcoinFetchUnit env idx bh s).state.lastBlockHeight = some w ∧ v ≤ w := by
  rcases bitcoinFetchUnit_cursor env idx bh s with hc | hc
  · exact ⟨v, by rw [hc]; exact hs, le_refl v⟩
  · exact ⟨bh, hc, hv⟩

/-- One Bitcoin `collect()` call never decreases a set cursor. -/
lemma bitcoinCollect_mono (env : BitcoinEnv) (s : BitcoinCollectorState) (v : Int)
    (h : s.lastBlockHeight = some v) :
    ∃ w, (bitcoinCollect env s).1.lastBlockHeight = some w ∧ v ≤ w := by
  unfold bitcoinCollect
  split
  · exact ⟨v, h, le_refl v⟩
  · dsimp only
    unfold bitcoinBody
    repeat' first
      | split
      | dsimp only
    all_goals try exact ⟨v, h, le_refl v⟩
    all_goals simp_all
    all_goals
      (apply bitcoinFetchUnit_mono
       · first
         | rfl
         | exact h
       · omega)

/-- The Solana block processing leaves the cursor unchanged or sets it to
the processed slot. -/
lemma solanaProcessBlock_cursor (now slot : Int) (block : PyVal) (s : SolanaCollectorState) :
    (solanaProcessBlock now slot block s).state.lastSlot = s.lastSlot ∨
    (solanaProcessBlock now slot block s).state.lastSlot = some slot := by
  unfold solanaProcessBlock
  repeat' first
    | split
    | dsimp only
  all_goals simp

/-- Cursor monotonicity of the Solana post-tip processing. -/
lemma solanaAfterInit_mono (env : SolanaEnv) (idx : Nat) (ls : Int) (latest : PyVal)
    (s : SolanaCollectorState) (v : Int)
    (hs : s.lastSlot = some v) (hv : v ≤ ls + 1) :
    ∃ w, (solanaAfterInit env idx ls latest s).state.lastSlot = some w ∧ v ≤ w := by
  unfold solanaAfterInit
  repeat' first
    | split
    | dsimp only
  all_goals try exact ⟨v, hs, le_refl v⟩
  rcases solanaProcessBlock_cursor env.now (ls + 1) _ s with hc | hc
  · exact ⟨v, by rw [hc]; exact hs, le_refl v⟩
  · exact ⟨ls + 1, hc, hv⟩

/-- One Solana `collect()` call never decreases a set cursor. -/
lemma solanaCollect_mono (env : SolanaEnv) (s : SolanaCollectorState) (v : Int)
    (h : s.lastSlot = some v) :
    ∃ w, (solanaCollect env s).1.lastSlot = some w ∧ v ≤ w := by
  unfold solanaCollect
  split
  · exact ⟨v, h, le_refl v⟩
  · dsimp only
    unfold solanaBody
    repeat' first
      | split
      | dsimp only
    all_goals try exact ⟨v, h, le_refl v⟩
    all_goals simp_all
    all_goals
      (apply solanaAfterInit_mono
       · first
         | rfl
         | exact h
         | simp_all
       · omega)

/-- C8: cursors never decrease across any sequence of collect calls. -/
theorem claim8_cursor_monotone :
    (∀ (s : BitcoinCollectorState) (envs : List BitcoinEnv) (v : Int),
        s.lastBlockHeight = some v →
        ∃ w, (runBitcoin s envs).lastBlockHeight = some w ∧ v ≤ w) ∧
    (∀ (s : SolanaCollectorState) (envs : List SolanaEnv) (v : Int),
        s.lastSlot = some v →
        ∃ w, (runSolana s envs).lastSlot = some w ∧ v ≤ w) := by
  constructor
  · intro s envs
    induction envs generalizing s with
    | nil => intro v h; exact ⟨v, h, le_refl v⟩
    | cons e rest ih =>
        intro v h
        obtain ⟨w, hw, hvw⟩ := bitcoinCollect_mono e s v h
        obtain ⟨u, hu, hwu⟩ := ih ((bitcoinCollect e s).1) w hw
        exact ⟨u, by simpa [runBitcoin] using hu, le_trans hvw hwu⟩
  · intro s envs
    induction envs generalizing s with
    | nil => intro v h; exact ⟨v, h, le_refl v⟩
    | cons e rest ih =>
        intro v h
        obtain ⟨w, hw, hvw⟩ := solanaCollect_mono e s v h
        obtain ⟨u, hu, hwu⟩ := ih ((solanaCollect e s).1) w hw
        exact ⟨u, by simpa [runSolana] using hu, le_trans hvw hwu⟩

/-- Witness for C8 on singleton call sequences from cursor 99. -/
theorem claim8_witness :
    (∃ w, (runBitcoin { bitcoinInit true with lastBlockHeight := some 99 }
        [{ resp := fun _ => HttpResp.notFound, now := 0 }]).lastBlockHeight = some w ∧
      99 ≤ w) ∧
    (∃ w, (runSolana { solanaInit true with lastSlot := some 99 }
        [{ resp := fun _ => Except.ok (PyVal.dict []), now := 0 }]).lastSlot = some w ∧
      99 ≤ w) :=
  ⟨claim8_cursor_monotone.1 { bitcoinInit true with lastBlockHeight := some 99 }
      [{ resp := fun _ => HttpResp.notFound, now := 0 }] 99 rfl,
   claim8_cursor_monotone.2 { solanaInit true with lastSlot := some 99 }
      [{ resp := fun _ => Except.ok (PyVal.dict []), now := 0 }] 99 rfl⟩

/-- A transport whose first response times out and whose second succeeds. -/
def claim2WEnv : Nat → HttpResp := fun i =>
  match i with
  | 0 => HttpResp.timeout
  | _ => HttpResp.ok (PyVal.str "tip")

/-- Witness for C2 amended: the Bitcoin call retries past a timeout and
returns the second response, while a Solana call consumes exactly one
response. -/
theorem claim2_amended_witness :
    apiCall claim2WEnv 0 5 300 = (.ok (some (PyVal.str "tip")), 5, 2) ∧
    (solanaRpcCall claim2Env 1).2 = 2 :=
  ⟨claim2_amended.1 claim2WEnv 0 5 300 (PyVal.str "tip") rfl rfl,
   claim2_amended.2.2.1 claim2Env 1⟩
